import Mathlib

/-!
Verification of the perception-state layer of the escrime vision system.

This file gives a shallow embedding, in Lean 4, of the four core components
of the repository (`src/vision/tracker.py`, `src/vision/fencer_tracker.py`,
`src/vision/guard_line_detector.py`, `src/vision/bout_manager.py`) and proves
or refutes the frozen specification claims about them.

Modelling conventions:
* Pixel coordinates and times are rationals (`ℚ`); Python float arithmetic on
  the small decimal inputs used here is exact, so `ℚ` is a faithful carrier.
* Euclidean distances are represented by their squares (`dist2`).  Every
  comparison the source makes on a distance `sqrt d2 ≤ m` is embedded as the
  equivalent `0 ≤ m ∧ d2 ≤ m * m` (`sqrtLe`), and comparisons between two
  distances compare the squares; both translations are order-faithful because
  `sqrt` is monotone on nonnegative reals.
* Python dicts that are only iterated in insertion order are embedded as
  lists kept in insertion order.
* `numpy.argmin` returns the first index attaining the minimum; `listArgmin`
  mirrors that.  `numpy.argsort` is embedded by a stable sort on indices
  (`argsortBy`); the repository's own spec leaves the order of tied rows
  undefined, and no theorem below depends on the tie order.
* Python `int(x)` truncates toward zero; `pyInt` mirrors that.
-/

/-- Bounding box `(x1, y1, x2, y2)` in pixel space. -/
structure BBox where
  x1 : ℚ
  y1 : ℚ
  x2 : ℚ
  y2 : ℚ
deriving DecidableEq, Repr, Inhabited

/-- Centroid of a bbox, as in `CentroidTracker._centroid_from_bbox` and
`FencerTracker._centroid_from_bbox`: `((x1+x2)/2, (y1+y2)/2)`. -/
def centroidOf (b : BBox) : ℚ × ℚ := ((b.x1 + b.x2) / 2, (b.y1 + b.y2) / 2)

/-- Squared Euclidean distance between two points. -/
def dist2 (p q : ℚ × ℚ) : ℚ := (p.1 - q.1) ^ 2 + (p.2 - q.2) ^ 2

/-- `sqrtLe d2 m` embeds the float comparison `sqrt d2 ≤ m` (with `d2 ≥ 0`
a squared distance): it holds iff `m` is nonnegative and `d2 ≤ m²`. -/
def sqrtLe (d2 m : ℚ) : Prop := 0 ≤ m ∧ d2 ≤ m * m

instance (d2 m : ℚ) : Decidable (sqrtLe d2 m) := by unfold sqrtLe; infer_instance

/-- Python `int()`: truncation toward zero. -/
def pyInt (q : ℚ) : ℤ := if 0 ≤ q then ⌊q⌋ else -⌊-q⌋

/-- First index of the strict minimum of a list (as `numpy.argmin`: the
first position attaining the minimum).  Auxiliary accumulator form. -/
def argminAux : List ℚ → ℕ → ℕ → ℚ → ℕ
  | [], _, bi, _ => bi
  | v :: rest, i, bi, bv =>
      if v < bv then argminAux rest (i + 1) i v else argminAux rest (i + 1) bi bv

/-- `listArgmin l` is the first index of the minimum of `l` (0 on `[]`). -/
def listArgmin : List ℚ → ℕ
  | [] => 0
  | v :: rest => argminAux rest 1 0 v

/-- Minimum value of a list (0 on `[]`), as `numpy.min` along a row. -/
def listMin : List ℚ → ℚ
  | [] => 0
  | v :: rest => rest.foldl min v

/-- Stable argsort of the indices `0, …, n-1` by the key `key`, embedding
`numpy.argsort` of the row minima (stable tie order chosen; the tie order is
unspecified in the source). -/
def argsortBy (key : ℕ → ℚ) (n : ℕ) : List ℕ :=
  List.insertionSort (fun i j => key i ≤ key j) (List.range n)

/-! ### CentroidTracker (`src/vision/tracker.py`) -/

/-- One tracked object of `CentroidTracker`: the entry `id ↦ bbox` of
`self.objects` together with its `self.centroids` and `self.disappeared`
entries (the three dicts share keys and insertion order). -/
structure CTObj where
  id : ℕ
  bbox : BBox
  centroid : ℚ × ℚ
  disappeared : ℕ
deriving DecidableEq, Repr, Inhabited

/-- Output track record `{'id', 'bbox', 'centroid'}`. -/
structure Track where
  id : ℕ
  bbox : BBox
  centroid : ℚ × ℚ
deriving DecidableEq, Repr, Inhabited

/-- State of `CentroidTracker`. -/
structure CTState where
  nextId : ℕ
  objs : List CTObj
  maxDisappeared : ℕ
  maxDistance : ℚ
deriving DecidableEq, Repr, Inhabited

namespace CT

/-- `CentroidTracker.register`. -/
def register (s : CTState) (b : BBox) : CTState :=
  { s with
    nextId := s.nextId + 1
    objs := s.objs ++ [{ id := s.nextId, bbox := b, centroid := centroidOf b, disappeared := 0 }] }

/-- Register each bbox in order (`for bbox in input_bboxes: self.register(bbox)`). -/
def registerAll (s : CTState) (bs : List BBox) : CTState :=
  bs.foldl register s

/-- Distance-matrix row of object `i` against the detection centroids:
`D[i, :]` of `np.linalg.norm(object_centroids[:, None, :] - input_centroids[None, :, :], axis=2)`,
represented by squared distances. -/
def row (objs : List CTObj) (cents : List (ℚ × ℚ)) (i : ℕ) : List ℚ :=
  cents.map (fun c => dist2 (objs.getD i default).centroid c)

/-- The greedy matching loop
(`for r, c in zip(rows, cols): …`): processes rows in the given order; each
row's candidate column is the argmin of its whole row; the candidate is taken
iff it is not yet assigned and its distance is within `maxDistance`.
Returns the assignment list and the assigned columns, both in reverse
processing order. -/
def greedyAssign (rowf : ℕ → List ℚ) (maxDistance : ℚ) (rows : List ℕ) :
    List (ℕ × ℕ) × List ℕ :=
  rows.foldl
    (fun acc r =>
      let c := listArgmin (rowf r)
      if c ∈ acc.2 then acc
      else if ¬ sqrtLe ((rowf r).getD c 0) maxDistance then acc
      else ((r, c) :: acc.1, c :: acc.2))
    ([], [])

/-- Apply the computed assignment to the object list: a matched object gets
the claimed detection's bbox/centroid and `disappeared := 0`. -/
def applyAssign (objs : List CTObj) (dets : List BBox) (cents : List (ℚ × ℚ))
    (assign : List (ℕ × ℕ)) : List CTObj :=
  (List.range objs.length).map fun i =>
    let o := objs.getD i default
    match assign.find? (fun p => p.1 == i) with
    | some p => { o with bbox := dets.getD p.2 default,
                         centroid := cents.getD p.2 default, disappeared := 0 }
    | none => o

/-- Ids counted as assigned by the final sweep of `update`:
`{object_ids[r] for r, c in zip(rows, cols) if c in assigned_cols}` — note the
source tests each row's candidate column against the final assigned set, so a
row whose candidate was claimed by another row is also counted. -/
def assignedIds (objs : List CTObj) (rowf : ℕ → List ℚ) (rows assignedCols : List ℕ) :
    List ℕ :=
  (rows.filter (fun r => listArgmin (rowf r) ∈ assignedCols)).map
    (fun r => (objs.getD r default).id)

/-- The disappearance sweep: every object whose id is not in `ids` has its
counter incremented and is deregistered once the counter exceeds
`maxDisappeared`. -/
def sweep (maxDisappeared : ℕ) (ids : List ℕ) (objs : List CTObj) : List CTObj :=
  objs.filterMap fun o =>
    if o.id ∈ ids then some o
    else if o.disappeared + 1 > maxDisappeared then none
    else some { o with disappeared := o.disappeared + 1 }

/-- Output tracks of the current object list. -/
def tracksOf (objs : List CTObj) : List Track :=
  objs.map fun o => { id := o.id, bbox := o.bbox, centroid := o.centroid }

/-- `CentroidTracker.update`, returning the new state and the track list. -/
def update (s : CTState) (dets : List BBox) : CTState × List Track :=
  if dets.isEmpty then
    let objs' := s.objs.filterMap fun o =>
      if o.disappeared + 1 > s.maxDisappeared then none
      else some { o with disappeared := o.disappeared + 1 }
    ({ s with objs := objs' }, tracksOf objs')
  else if s.objs.isEmpty then
    let s' := registerAll s dets
    (s', tracksOf s'.objs)
  else
    let cents := dets.map centroidOf
    let rowf := row s.objs cents
    let n := s.objs.length
    let rows := argsortBy (fun i => listMin (rowf i)) n
    let (assign, assignedCols) := greedyAssign rowf s.maxDistance rows
    let objs1 := applyAssign s.objs dets cents assign
    let s1 : CTState := { s with objs := objs1 }
    let s2 := (List.range dets.length).foldl
      (fun acc i => if i ∈ assignedCols then acc else register acc (dets.getD i default)) s1
    let ids := assignedIds s.objs rowf rows assignedCols
    let objs3 := sweep s.maxDisappeared ids s2.objs
    ({ s2 with objs := objs3 }, tracksOf objs3)

end CT

/-- A fresh `CentroidTracker(max_disappeared, max_distance)`. -/
def CTState.init (maxDisappeared : ℕ) (maxDistance : ℚ) : CTState :=
  { nextId := 1, objs := [], maxDisappeared := maxDisappeared, maxDistance := maxDistance }

/-! ### GuardLineDetector (`src/vision/guard_line_detector.py`)

In the source the calibration fields (`piste_roi`, the three `*_calc`
positions, the three adjusted positions and the tilt factors) are all `None`
until `set_roi` runs and are all assigned together by it; no code path sets
them partially.  They are therefore embedded as a single `Option GLCalib`. -/

/-- Calibration data created by `GuardLineDetector.set_roi`. -/
structure GLCalib where
  roi : BBox
  pixelsPerMeter : ℚ
  leftXCalc : ℚ
  centerXCalc : ℚ
  rightXCalc : ℚ
  leftX : ℚ
  centerX : ℚ
  rightX : ℚ
  leftTilt : ℚ
  centerTilt : ℚ
  rightTilt : ℚ
deriving DecidableEq, Repr, Inhabited

/-- State of `GuardLineDetector`; `guard_line_tolerance` is set to 20 in
`__init__` and never changed. -/
structure GLDState where
  calib : Option GLCalib
  tolerance : ℚ
deriving DecidableEq, Repr, Inhabited

/-- A fresh `GuardLineDetector()`. -/
def GLDState.init : GLDState := { calib := none, tolerance := 20 }

/-- The three adjustable guard lines. -/
inductive LineId
  | left
  | center
  | right
deriving DecidableEq, Repr

namespace GLD

/-- `GuardLineDetector.set_roi`: pixels-per-meter from the 14 m piste length,
calculated positions at the 5 m / 7 m / 9 m marks, adjusted positions
initialised to the calculated ones, neutral tilts. -/
def setRoi (s : GLDState) (roi : BBox) : GLDState :=
  let len := roi.x2 - roi.x1
  let leftC := roi.x1 + 5 / 14 * len
  let centerC := roi.x1 + 7 / 14 * len
  let rightC := roi.x1 + 9 / 14 * len
  let c : GLCalib :=
    { roi := roi
      pixelsPerMeter := len / 14
      leftXCalc := leftC, centerXCalc := centerC, rightXCalc := rightC
      leftX := leftC, centerX := centerC, rightX := rightC
      leftTilt := 1, centerTilt := 1, rightTilt := 1 }
  { s with calib := some c }

/-- `GuardLineDetector.adjust_guard_line`: recomputes the adjusted position
from the immutable calculated base (`adjusted = calc + offset`) and stores the
tilt; a no-op while the calculated value is absent (`set_roi` not yet run). -/
def adjustGuardLine (s : GLDState) (lineId : LineId) (offsetX tilt : ℚ) : GLDState :=
  match s.calib with
  | none => s
  | some c =>
    match lineId with
    | .left => { s with calib := some { c with leftX := c.leftXCalc + offsetX, leftTilt := tilt } }
    | .right => { s with calib := some { c with rightX := c.rightXCalc + offsetX, rightTilt := tilt } }
    | .center => { s with calib := some { c with centerX := c.centerXCalc + offsetX, centerTilt := tilt } }

end GLD

/-! ### DualFencerTracker (`src/vision/fencer_tracker.py`)

Status strings in the returned `frame_info` are presentational and omitted.
Detections are embedded by their `bbox` field, the only field the tracker
reads. -/

/-- `TrackedFencer`. -/
structure Fencer where
  id : ℕ
  bbox : BBox
  centroid : ℚ × ℚ
  framesAlive : ℕ
  framesSinceDetection : ℕ
deriving DecidableEq, Repr, Inhabited

/-- The `frame_info` dict produced by `FencerTracker.update` (without the
presentational `status` string). -/
structure FrameInfo where
  initialized : Bool
  numFencers : ℕ
  frameBox : Option BBox
deriving DecidableEq, Repr, Inhabited

/-- State of `FencerTracker`; `fencers` is the `id → TrackedFencer` dict in
insertion order. -/
structure FTState where
  maxTrackingDistance : ℚ
  dropoutTolerance : ℕ
  initialized : Bool
  fencers : List Fencer
  frameCount : ℕ
deriving DecidableEq, Repr, Inhabited

/-- A fresh `FencerTracker(max_tracking_distance, dropout_tolerance)`. -/
def FTState.init (maxTrackingDistance : ℚ) (dropoutTolerance : ℕ) : FTState :=
  { maxTrackingDistance := maxTrackingDistance, dropoutTolerance := dropoutTolerance
    initialized := false, fencers := [], frameCount := 0 }

namespace FT

/-- Python `max(l, key=f)`: the first element with maximal key. -/
def pyMaxBy (f : BBox → ℚ) : List BBox → BBox
  | [] => default
  | d :: rest => rest.foldl (fun best x => if f x > f best then x else best) d

/-- Python `min(l, key=f)`: the first element with minimal key. -/
def pyMinBy (f : BBox → ℚ) : List BBox → BBox
  | [] => default
  | d :: rest => rest.foldl (fun best x => if f x < f best then x else best) d

/-- Bbox center on the x axis, used to partition candidates during the lock. -/
def centerX (b : BBox) : ℚ := (b.x1 + b.x2) / 2

/-- `get_best_detection` inside `FencerTracker._initialize_with_guard_lines`:
a single candidate is returned as is; with several, the side is *guessed*
from whether the first candidate's `bbox[0]` lies left of the left line, and
the max (resp. min) bbox-center-x candidate is taken for the left (resp.
right) side. -/
def getBestDetection (leftX : ℚ) : List BBox → BBox
  | [] => default
  | [d] => d
  | d :: e :: l =>
    if d.x1 < leftX then pyMaxBy centerX (d :: e :: l) else pyMinBy centerX (d :: e :: l)

/-- Provisional tracks for the uninitialized branch: detections sorted by
ascending `bbox[0]` (Python's stable `sorted`), with ids `100 + i`. -/
def provisionalTracks (dets : List BBox) : List Track :=
  ((List.insertionSort (fun a b : BBox => a.x1 ≤ b.x1) dets).enum).map
    fun p => { id := 100 + p.1, bbox := p.2, centroid := centroidOf p.2 }

/-- `FencerTracker._calculate_frame_box`: padded union of the locked fencers'
boxes, `None` when no fencer is locked.  The paddings are
`int(width * 0.1)` / `int(height * 0.1)`; on the pixel magnitudes concerned
the float product is exact enough that this is `pyInt` of the exact tenth. -/
def frameBoxOf : List Fencer → Option BBox
  | [] => none
  | f :: fs =>
    let bs := (f :: fs).map Fencer.bbox
    let x1m := (bs.map BBox.x1).foldl min f.bbox.x1
    let y1m := (bs.map BBox.y1).foldl min f.bbox.y1
    let x2m := (bs.map BBox.x2).foldl max f.bbox.x2
    let y2m := (bs.map BBox.y2).foldl max f.bbox.y2
    let padX : ℚ := (pyInt ((x2m - x1m) / 10) : ℤ)
    let padY : ℚ := (pyInt ((y2m - y1m) / 10) : ℤ)
    some ⟨max 0 (x1m - padX), max 0 (y1m - padY), x2m + padX, y2m + padY⟩

/-- Output track of a fencer. -/
def toTrack (f : Fencer) : Track := { id := f.id, bbox := f.bbox, centroid := f.centroid }

/-- `FencerTracker._initialize_with_guard_lines`.  Returns `none` when the
lock is not yet possible (no calibration, a side without candidates, or the
selected pair separated by less than the 80 px minimum lock separation). -/
def initGuardLines (s : FTState) (dets : List BBox) (g : GLDState) :
    Option (FTState × List Track × FrameInfo) :=
  match g.calib with
  | none => none
  | some c =>
    let leftX := c.leftX
    let rightX := c.rightX
    let leftSide := dets.filter fun d => centerX d < leftX
    let rightSide := dets.filter fun d => ¬ centerX d < leftX ∧ centerX d > rightX
    if leftSide.isEmpty ∨ rightSide.isEmpty then none
    else
      let f1d := getBestDetection leftX leftSide
      let f2d := getBestDetection leftX rightSide
      let c1 := centroidOf f1d
      let c2 := centroidOf f2d
      if |c2.1 - c1.1| < 80 then none
      else
        let fencers : List Fencer :=
          [ { id := 1, bbox := f1d, centroid := c1, framesAlive := 0, framesSinceDetection := 0 },
            { id := 2, bbox := f2d, centroid := c2, framesAlive := 0, framesSinceDetection := 0 } ]
        let tracks := fencers.map toTrack
        some ({ s with fencers := fencers, initialized := true },
              tracks,
              { initialized := true, numFencers := tracks.length, frameBox := frameBoxOf fencers })

/-- `FencerTracker._update_initialization`. -/
def updateInit (s : FTState) (dets : List BBox) (g : Option GLDState) :
    FTState × List Track × FrameInfo :=
  if dets.length < 2 then
    (s, provisionalTracks dets, { initialized := false, numFencers := dets.length, frameBox := none })
  else
    let attempt := match g with
      | some gd => initGuardLines s dets gd
      | none => none
    match attempt with
    | some out => out
    | none =>
      (s, provisionalTracks dets, { initialized := false, numFencers := dets.length, frameBox := none })

/-- One pass of the greedy track-to-detection loop of
`FencerTracker._update_tracking`, recursing over the track positions.
The source computes the distance matrix from the pre-loop centroids, but a
fencer's own centroid is only mutated at its own iteration, so reading the
live centroid at each turn is equivalent.  The anti-overlap test reads the
other fencer's *live* centroid from the dict, exactly as the source does.
Returns the updated fencer list, the assigned detection indices and the
assigned track ids (the latter two in reverse order of assignment). -/
def trackLoop (maxTrack : ℚ) (dets : List BBox) :
    List ℕ → List Fencer → List ℕ → List ℕ → List Fencer × List ℕ × List ℕ
  | [], fencers, aD, aT => (fencers, aD, aT)
  | i :: rest, fencers, aD, aT =>
    let unassigned := (List.range dets.length).filter fun j => j ∉ aD
    if unassigned.isEmpty then (fencers, aD, aT)
    else
      let f := fencers.getD i default
      let dlist := unassigned.map fun j => dist2 f.centroid (centroidOf (dets.getD j default))
      let rel := listArgmin dlist
      let j := unassigned.getD rel 0
      if sqrtLe (dlist.getD rel 0) maxTrack then
        let det := dets.getD j default
        let cen := centroidOf det
        let otherId := if f.id = 1 then 2 else 1
        let commit :=
          fencers.set i { f with bbox := det, centroid := cen,
                                 framesSinceDetection := 0, framesAlive := f.framesAlive + 1 }
        match fencers.find? (fun x => x.id == otherId) with
        | some other =>
          if |cen.1 - other.centroid.1| < 50 then
            trackLoop maxTrack dets rest
              (fencers.set i { f with framesSinceDetection := f.framesSinceDetection + 1 }) aD aT
          else
            trackLoop maxTrack dets rest commit (j :: aD) (f.id :: aT)
        | none =>
          trackLoop maxTrack dets rest commit (j :: aD) (f.id :: aT)
      else
        trackLoop maxTrack dets rest fencers aD aT

/-- `FencerTracker._update_tracking`. -/
def updateTracking (s : FTState) (dets : List BBox) : FTState × List Track × FrameInfo :=
  let (fencers1, aD, aT) :=
    trackLoop s.maxTrackingDistance dets (List.range s.fencers.length) s.fencers [] []
  let fencers2 := fencers1.map fun f =>
    if f.id ∈ aT then f
    else { f with framesSinceDetection := f.framesSinceDetection + 1,
                  framesAlive := f.framesAlive + 1 }
  let fencers3 := fencers2.filter fun f => ¬ f.framesSinceDetection > s.dropoutTolerance
  let locked := fencers3.map toTrack
  let others := ((List.range dets.length).filter fun j => j ∉ aD).map
    fun j => ({ id := 100 + j, bbox := dets.getD j default,
                centroid := centroidOf (dets.getD j default) } : Track)
  ({ s with fencers := fencers3 },
   locked ++ others,
   { initialized := true, numFencers := locked.length, frameBox := frameBoxOf fencers3 })

/-- `FencerTracker.update`. -/
def update (s : FTState) (dets : List BBox) (g : Option GLDState) :
    FTState × List Track × FrameInfo :=
  let s0 := { s with frameCount := s.frameCount + 1 }
  if s0.initialized then updateTracking s0 dets else updateInit s0 dets g

end FT

/-! ### BoutManager (`src/vision/bout_manager.py`)

`time.time()` readings are passed in explicitly as the `now` argument of
`transition`; the state stores the phase-entry timestamp. -/

/-- `BoutPhase`. -/
inductive BoutPhase
  | waiting
  | roiValidation
  | initializing
  | boutActive
  | boutFinished
deriving DecidableEq, Repr, Inhabited

/-- State of `BoutManager` (the fields the transition/smoothing logic
touches, plus the owned guard-line detector). -/
structure BMState where
  phase : BoutPhase
  initializationDuration : ℚ
  maxFrameVelocity : ℚ
  roiSelected : Bool
  phaseStartTime : ℚ
  lastFrameBox : Option BBox
  smoothedFrameBox : Option BBox
  guardLineDetector : GLDState
deriving DecidableEq, Repr, Inhabited

/-- A fresh `BoutManager(initialization_duration, max_frame_velocity)`
constructed at time `t0`. -/
def BMState.init (initializationDuration maxFrameVelocity t0 : ℚ) : BMState :=
  { phase := .waiting, initializationDuration := initializationDuration
    maxFrameVelocity := maxFrameVelocity, roiSelected := false
    phaseStartTime := t0, lastFrameBox := none, smoothedFrameBox := none
    guardLineDetector := GLDState.init }

namespace BM

/-- `BoutManager.signal_roi_selected`. -/
def signalRoiSelected (s : BMState) (roi : Option BBox) : BMState :=
  { s with roiSelected := true
           guardLineDetector := match roi with
             | some r => GLD.setRoi s.guardLineDetector r
             | none => s.guardLineDetector }

/-- `BoutManager.transition`, with the wall-clock reading `now` passed
explicitly.  The `bout_finished` check precedes every phase branch; the
declared-but-never-visited `ROI_VALIDATION` phase falls through unchanged. -/
def transition (s : BMState) (now : ℚ) (initialized : Bool) (numFencers : ℕ)
    (boutFinished : Bool) : BMState :=
  let timeInPhase := now - s.phaseStartTime
  if boutFinished then { s with phase := .boutFinished, phaseStartTime := now }
  else
    match s.phase with
    | .waiting =>
      if s.roiSelected ∧ numFencers ≥ 2 then
        { s with phase := .initializing, phaseStartTime := now }
      else s
    | .initializing =>
      if initialized then
        { s with phase := .boutActive, phaseStartTime := now, lastFrameBox := none }
      else if timeInPhase > s.initializationDuration * 2 then
        { s with phase := .waiting, phaseStartTime := now, roiSelected := false }
      else s
    | .boutActive => s
    | .boutFinished =>
      if timeInPhase > 2 then
        { s with phase := .waiting, phaseStartTime := now, lastFrameBox := none }
      else s
    | .roiValidation => s

/-- `BoutManager.smooth_frame_box`: `None` clears both stored boxes; the
first box after a clear passes through unchanged; otherwise each coordinate's
delta against `last_frame_box` is clamped to `±max_frame_velocity` and the
result goes through Python `int()` before becoming output and new baseline. -/
def smoothFrameBox (s : BMState) (box : Option BBox) : BMState × Option BBox :=
  match box with
  | none => ({ s with lastFrameBox := none, smoothedFrameBox := none }, none)
  | some b =>
    match s.lastFrameBox with
    | none => ({ s with lastFrameBox := some b, smoothedFrameBox := some b }, some b)
    | some lb =>
      let clampv : ℚ → ℚ := fun x => max (-s.maxFrameVelocity) (min s.maxFrameVelocity x)
      let sx1 : ℚ := (pyInt (lb.x1 + clampv (b.x1 - lb.x1)) : ℤ)
      let sy1 : ℚ := (pyInt (lb.y1 + clampv (b.y1 - lb.y1)) : ℤ)
      let sx2 : ℚ := (pyInt (lb.x2 + clampv (b.x2 - lb.x2)) : ℤ)
      let sy2 : ℚ := (pyInt (lb.y2 + clampv (b.y2 - lb.y2)) : ℤ)
      let sb : BBox := ⟨sx1, sy1, sx2, sy2⟩
      ({ s with lastFrameBox := some sb, smoothedFrameBox := some sb }, some sb)

/-- `BoutManager.should_apply_roi_filter`. -/
def shouldApplyRoiFilter (s : BMState) : Bool :=
  s.phase = BoutPhase.initializing ∨ s.phase = BoutPhase.boutActive

end BM

/-! ### Named scenario states used by concrete theorems -/

/-- Calculated x-position of a guard line. -/
def GLCalib.calcOf (c : GLCalib) : LineId → ℚ
  | .left => c.leftXCalc
  | .center => c.centerXCalc
  | .right => c.rightXCalc

/-- Adjusted x-position of a guard line. -/
def GLCalib.adjOf (c : GLCalib) : LineId → ℚ
  | .left => c.leftX
  | .center => c.centerX
  | .right => c.rightX

/-- Bout-manager scenario: fresh manager (`initialization_duration = 5`,
`max_frame_velocity = 50`) constructed at time 0, first tick at time 0 with
no region and no fencers. -/
def bmScen1 : BMState := BM.transition (BMState.init 5 50 0) 0 false 0 false

/-- Scenario: the operator confirms the region. -/
def bmScen2 : BMState := BM.signalRoiSelected bmScen1 (some ⟨0, 0, 280, 100⟩)

/-- Scenario: tick at time 1 with two fencers on the piste. -/
def bmScen3 : BMState := BM.transition bmScen2 1 false 2 false

/-- Scenario: tick at time 3/2 with the tracker initialized. -/
def bmScen4 : BMState := BM.transition bmScen3 (3 / 2) true 2 false

/-- Scenario: tick at time 2 with the bout-finished signal. -/
def bmScen5 : BMState := BM.transition bmScen4 2 true 2 true

/-- Scenario: tick 2.1 s after entering `BOUT_FINISHED`, no finished signal. -/
def bmScen6 : BMState := BM.transition bmScen5 (41 / 10) true 2 false

/-- Guard-line detector calibrated on the piste ROI `(0, 0, 280, 100)`
(pixels-per-meter 20; lines at x = 100, 140, 180). -/
def gldScen : GLDState := GLD.setRoi GLDState.init ⟨0, 0, 280, 100⟩

/-- Lock-attempt detections with a very wide right-side candidate: one
left-sider (center-x 50), and two right-siders — a wide box spanning the
whole lane (bbox `(0,0,500,90)`, center-x 250) and a narrow one
(bbox `(300,0,320,90)`, center-x 310). -/
def c7Dets : List BBox := [⟨40, 0, 60, 90⟩, ⟨0, 0, 500, 90⟩, ⟨300, 0, 320, 90⟩]

/-- The lock attempt of claim C7's failing input. -/
def c7Run : FTState × List Track × FrameInfo :=
  FT.update (FTState.init 100 30) c7Dets (some gldScen)

/-! ### Theorems -/

/-- Claim C3: the BoutManager.transition state machine satisfies the scenario:
from WAITING with no region and no fencers the phase stays WAITING; after the
region is confirmed, a tick with two fencers moves to INITIALIZING; a tick
with `initialized = true` moves to BOUT_ACTIVE; a tick with
`bout_finished = true` moves to BOUT_FINISHED; and a tick 2.1 s later with no
finished signal returns to WAITING.  Moreover the `bout_finished` check
precedes all other phase logic: from any state, a tick with
`bout_finished = true` yields BOUT_FINISHED and resets the phase clock. -/
theorem boutManager_phase_scenario :
    bmScen1.phase = BoutPhase.waiting ∧
    bmScen3.phase = BoutPhase.initializing ∧
    bmScen4.phase = BoutPhase.boutActive ∧
    bmScen5.phase = BoutPhase.boutFinished ∧ bmScen5.phaseStartTime = 2 ∧
    bmScen6.phase = BoutPhase.waiting ∧
    ∀ (s : BMState) (now : ℚ) (ini : Bool) (nf : ℕ),
      BM.transition s now ini nf true
        = { s with phase := BoutPhase.boutFinished, phaseStartTime := now } := by
  refine ⟨?_, ?_, ?_, ?_, ?_, ?_, ?_⟩
  · norm_num [bmScen1, BM.transition, BMState.init]
  · norm_num [bmScen3, bmScen2, bmScen1, BM.transition, BM.signalRoiSelected, BMState.init]
  · norm_num [bmScen4, bmScen3, bmScen2, bmScen1, BM.transition, BM.signalRoiSelected,
      BMState.init]
  · norm_num [bmScen5, bmScen4, bmScen3, bmScen2, bmScen1, BM.transition,
      BM.signalRoiSelected, BMState.init]
  · norm_num [bmScen5, bmScen4, bmScen3, bmScen2, bmScen1, BM.transition,
      BM.signalRoiSelected, BMState.init]
  · norm_num [bmScen6, bmScen5, bmScen4, bmScen3, bmScen2, bmScen1, BM.transition,
      BM.signalRoiSelected, BMState.init]
  · intro s now ini nf
    simp [BM.transition]

/-- Claim C8: `adjust_guard_line` is idempotent (the adjusted position is
recomputed from the immutable calculated base, so repeating a call changes
nothing), a call without a prior `set_roi` changes nothing, and after
calibration the adjusted position is exactly `calculated + offset` while the
calculated base itself is untouched. -/
theorem adjustGuardLine_idempotent :
    ∀ (s : GLDState) (l : LineId) (o t : ℚ) (c : GLCalib) (tol : ℚ),
      GLD.adjustGuardLine (GLD.adjustGuardLine s l o t) l o t = GLD.adjustGuardLine s l o t ∧
      GLD.adjustGuardLine ⟨none, tol⟩ l o t = ⟨none, tol⟩ ∧
      (GLD.adjustGuardLine ⟨some c, tol⟩ l o t).calib.map (fun c2 => c2.adjOf l)
        = some (c.calcOf l + o) ∧
      ∀ l2, (GLD.adjustGuardLine ⟨some c, tol⟩ l o t).calib.map (fun c2 => c2.calcOf l2)
        = some (c.calcOf l2) := by
  intro s l o t c tol
  refine ⟨?_, ?_, ?_, ?_⟩
  · rcases s with ⟨calOpt, tol2⟩
    cases calOpt with
    | none => cases l <;> rfl
    | some c2 => cases l <;> rfl
  · cases l <;> rfl
  · cases l <;> rfl
  · intro l2
    cases l <;> cases l2 <;> rfl

/-- Claim C7 (failing input): during a lock attempt with right-side
candidates whose first element is a bbox stretching left of the left guard
line, `get_best_detection` applies the *left*-side rule (max center-x) to the
right side, locking fencer 2 onto the right-sider with maximal center-x
(bbox `(300,0,320,90)`, center-x 310) although a right-sider with strictly
smaller center-x exists (bbox `(0,0,500,90)`, center-x 250) — contradicting
the selection rule stated by the claim and by the function's own comments. -/
theorem lockSelection_wideBox_failing_input :
    c7Dets.filter (fun d => ¬ FT.centerX d < 100 ∧ FT.centerX d > 180)
      = [⟨0, 0, 500, 90⟩, ⟨300, 0, 320, 90⟩] ∧
    FT.centerX ⟨0, 0, 500, 90⟩ < FT.centerX ⟨300, 0, 320, 90⟩ ∧
    gldScen.calib.map (fun c => (c.leftX, c.rightX)) = some (100, 180) ∧
    c7Run.1.initialized = true ∧
    c7Run.1.fencers.map (fun f => (f.id, f.bbox))
      = [(1, ⟨40, 0, 60, 90⟩), (2, ⟨300, 0, 320, 90⟩)] := by
  refine ⟨?_, ?_, ?_, ?_, ?_⟩
  · norm_num [c7Dets, FT.centerX, List.filter]
  · norm_num [FT.centerX]
  · norm_num [gldScen, GLD.setRoi, GLDState.init]
  · norm_num [c7Run, c7Dets, gldScen, GLD.setRoi, GLDState.init, FT.update, FTState.init,
      FT.updateInit, FT.initGuardLines, FT.getBestDetection, FT.pyMaxBy, FT.pyMinBy,
      FT.centerX, FT.provisionalTracks, FT.frameBoxOf, FT.toTrack, centroidOf, List.filter]
  · norm_num [c7Run, c7Dets, gldScen, GLD.setRoi, GLDState.init, FT.update, FTState.init,
      FT.updateInit, FT.initGuardLines, FT.getBestDetection, FT.pyMaxBy, FT.pyMinBy,
      FT.centerX, FT.provisionalTracks, FT.frameBoxOf, FT.toTrack, centroidOf, List.filter]

/-- Python `int()` moves a rational by strictly less than 1. -/
lemma abs_pyInt_sub_lt_one (q : ℚ) : |((pyInt q : ℤ) : ℚ) - q| < 1 := by
  unfold pyInt
  split
  · have h1 := Int.floor_le q
    have h2 := Int.sub_one_lt_floor q
    rw [abs_lt]
    constructor <;> linarith
  · have h1 := Int.floor_le (-q)
    have h2 := Int.sub_one_lt_floor (-q)
    rw [abs_lt]
    constructor <;> push_cast <;> linarith

/-- The clamped delta has magnitude at most the velocity bound. -/
lemma abs_clamp_le (v x : ℚ) (hv : 0 ≤ v) : |max (-v) (min v x)| ≤ v := by
  rw [abs_le]
  refine ⟨le_max_left _ _, max_le (by linarith) ((min_le_left _ _))⟩

/-- One clamped-and-truncated smoothing step moves a coordinate away from the
previous baseline by strictly less than `v + 1`. -/
lemma pyInt_clamp_bound (lbc xc v : ℚ) (hv : 0 ≤ v) :
    |((pyInt (lbc + max (-v) (min v (xc - lbc))) : ℤ) : ℚ) - lbc| < v + 1 := by
  have h1 := abs_pyInt_sub_lt_one (lbc + max (-v) (min v (xc - lbc)))
  have h2 := abs_clamp_le v (xc - lbc) hv
  calc |((pyInt (lbc + max (-v) (min v (xc - lbc))) : ℤ) : ℚ) - lbc|
      = |(((pyInt (lbc + max (-v) (min v (xc - lbc))) : ℤ) : ℚ)
            - (lbc + max (-v) (min v (xc - lbc)))) + max (-v) (min v (xc - lbc))| := by
        ring_nf
    _ ≤ |((pyInt (lbc + max (-v) (min v (xc - lbc))) : ℤ) : ℚ)
            - (lbc + max (-v) (min v (xc - lbc)))| + |max (-v) (min v (xc - lbc))| :=
        abs_add _ _
    _ < v + 1 := by linarith

/-- Claim C6 (amended): `smooth_frame_box` with `none` clears the baseline and
returns `none`; the first non-none box after a reset passes through unchanged
and becomes the baseline; every subsequent output becomes the new baseline and
each of its four coordinates differs from the previous smoothed output by
strictly less than `max_frame_velocity + 1` (for an integral
`max_frame_velocity` and integral baseline this is the claim's
`≤ max_frame_velocity` bound, but Python's `int()` truncation can exceed a
fractional velocity bound by rounding, see the counterexample). -/
theorem smoothFrameBox_velocity_bound :
    ∀ (s : BMState) (b : BBox),
      0 ≤ s.maxFrameVelocity →
      BM.smoothFrameBox s none
          = ({ s with lastFrameBox := none, smoothedFrameBox := none }, none) ∧
      (s.lastFrameBox = none →
        BM.smoothFrameBox s (some b)
          = ({ s with lastFrameBox := some b, smoothedFrameBox := some b }, some b)) ∧
      ∀ lb, s.lastFrameBox = some lb →
        ∃ sb, BM.smoothFrameBox s (some b)
              = ({ s with lastFrameBox := some sb, smoothedFrameBox := some sb }, some sb) ∧
          |sb.x1 - lb.x1| < s.maxFrameVelocity + 1 ∧
          |sb.y1 - lb.y1| < s.maxFrameVelocity + 1 ∧
          |sb.x2 - lb.x2| < s.maxFrameVelocity + 1 ∧
          |sb.y2 - lb.y2| < s.maxFrameVelocity + 1 := by
  intro s b hv
  refine ⟨rfl, ?_, ?_⟩
  · intro h
    unfold BM.smoothFrameBox
    rw [h]
  · intro lb h
    unfold BM.smoothFrameBox
    rw [h]
    exact ⟨_, rfl, pyInt_clamp_bound _ _ _ hv, pyInt_clamp_bound _ _ _ hv,
      pyInt_clamp_bound _ _ _ hv, pyInt_clamp_bound _ _ _ hv⟩

/-- Claim C6 (counterexample): with `max_frame_velocity = 1/2`, feeding boxes
`(10,10,20,20)` then `(9,9,19,19)` produces the smoothed output `(9,9,19,19)`
— each coordinate moved by 1, exceeding the claimed `max_frame_velocity`
bound, because `int(10 - 0.5) = 9`. -/
theorem smoothFrameBox_fractional_velocity_cex :
    (BM.smoothFrameBox (BMState.init 5 (1 / 2) 0) (some ⟨10, 10, 20, 20⟩)).2
        = some ⟨10, 10, 20, 20⟩ ∧
    (BM.smoothFrameBox
        (BM.smoothFrameBox (BMState.init 5 (1 / 2) 0) (some ⟨10, 10, 20, 20⟩)).1
        (some ⟨9, 9, 19, 19⟩)).2 = some ⟨9, 9, 19, 19⟩ ∧
    ¬ |(9 : ℚ) - 10| ≤ (BMState.init 5 (1 / 2) 0).maxFrameVelocity := by
  refine ⟨rfl, ?_, by norm_num [BMState.init]⟩
  norm_num [BM.smoothFrameBox, BMState.init, pyInt]

/-- Witness for `smoothFrameBox_velocity_bound` at the counterexample's
second step: velocity 1/2, previous baseline `(10,10,20,20)`, input
`(9,9,19,19)`. -/
theorem smoothFrameBox_velocity_bound_witness :
    0 ≤ ((BM.smoothFrameBox (BMState.init 5 (1 / 2) 0) (some ⟨10, 10, 20, 20⟩)).1).maxFrameVelocity ∧
    (BM.smoothFrameBox (BMState.init 5 (1 / 2) 0) (some ⟨10, 10, 20, 20⟩)).1.lastFrameBox
        = some ⟨10, 10, 20, 20⟩ ∧
    ∃ sb, BM.smoothFrameBox
            ((BM.smoothFrameBox (BMState.init 5 (1 / 2) 0) (some ⟨10, 10, 20, 20⟩)).1)
            (some ⟨9, 9, 19, 19⟩)
          = ({ (BM.smoothFrameBox (BMState.init 5 (1 / 2) 0) (some ⟨10, 10, 20, 20⟩)).1 with
                lastFrameBox := some sb, smoothedFrameBox := some sb }, some sb) ∧
        |sb.x1 - (10 : ℚ)| < (BM.smoothFrameBox (BMState.init 5 (1 / 2) 0)
            (some ⟨10, 10, 20, 20⟩)).1.maxFrameVelocity + 1 ∧
        |sb.y1 - (10 : ℚ)| < (BM.smoothFrameBox (BMState.init 5 (1 / 2) 0)
            (some ⟨10, 10, 20, 20⟩)).1.maxFrameVelocity + 1 ∧
        |sb.x2 - (20 : ℚ)| < (BM.smoothFrameBox (BMState.init 5 (1 / 2) 0)
            (some ⟨10, 10, 20, 20⟩)).1.maxFrameVelocity + 1 ∧
        |sb.y2 - (20 : ℚ)| < (BM.smoothFrameBox (BMState.init 5 (1 / 2) 0)
            (some ⟨10, 10, 20, 20⟩)).1.maxFrameVelocity + 1 := by
  have hv : 0 ≤ ((BM.smoothFrameBox (BMState.init 5 (1 / 2) 0)
      (some ⟨10, 10, 20, 20⟩)).1).maxFrameVelocity := by norm_num [BM.smoothFrameBox, BMState.init]
  have hlb : (BM.smoothFrameBox (BMState.init 5 (1 / 2) 0) (some ⟨10, 10, 20, 20⟩)).1.lastFrameBox
      = some ⟨10, 10, 20, 20⟩ := by norm_num [BM.smoothFrameBox, BMState.init]
  exact ⟨hv, hlb,
    (smoothFrameBox_velocity_bound _ ⟨9, 9, 19, 19⟩ hv).2.2 ⟨10, 10, 20, 20⟩ hlb⟩

/-- Provisional tracks always carry ids at least 100. -/
lemma provisionalTracks_id_ge (dets : List BBox) :
    ∀ t ∈ FT.provisionalTracks dets, 100 ≤ t.id := by
  intro t ht
  unfold FT.provisionalTracks at ht
  simp only [List.mem_map] at ht
  obtain ⟨p, _, rfl⟩ := ht
  exact Nat.le_add_right 100 p.1

/-- A detection list with a candidate on each side of the guard lines has at
least two elements (the two filters are disjoint). -/
lemma two_side_candidates_length (dets : List BBox) (leftX rightX : ℚ)
    (hL : dets.filter (fun d => FT.centerX d < leftX) ≠ [])
    (hR : dets.filter (fun d => ¬ FT.centerX d < leftX ∧ FT.centerX d > rightX) ≠ []) :
    2 ≤ dets.length := by
  have h1 : 1 ≤ (dets.filter (fun d => FT.centerX d < leftX)).length :=
    List.length_pos.mpr hL
  have h2 : 1 ≤ (dets.filter (fun d => ¬ FT.centerX d < leftX ∧ FT.centerX d > rightX)).length :=
    List.length_pos.mpr hR
  have h3 := List.length_eq_length_filter_add (l := dets) (fun d => FT.centerX d < leftX)
  have h4 : (dets.filter (fun d => ¬ FT.centerX d < leftX ∧ FT.centerX d > rightX)).length
      ≤ (dets.filter (fun d => ! decide (FT.centerX d < leftX))).length := by
    rw [← List.countP_eq_length_filter, ← List.countP_eq_length_filter]
    refine List.countP_mono_left ?_
    intro d _ hd
    simp only [decide_eq_true_eq] at hd ⊢
    simp [hd.1]
  omega

/-- Claim C4: a lock attempt by an uninitialized tracker with at least one
candidate on each side of the guard lines, but whose two selected candidates
are horizontally closer than the 80 px minimum lock separation, leaves the
tracker uninitialized: the state only advances its frame counter (in
particular the fencer map is unchanged — it stays empty if it was empty), and
the update returns provisional tracks (all ids ≥ 100) with
`initialized = false` and `frame_box = none`. -/
theorem lockRejected_tooClose (s : FTState) (dets : List BBox) (g : GLDState) (c : GLCalib)
    (hInit : s.initialized = false)
    (hCal : g.calib = some c)
    (hL : dets.filter (fun d => FT.centerX d < c.leftX) ≠ [])
    (hR : dets.filter (fun d => ¬ FT.centerX d < c.leftX ∧ FT.centerX d > c.rightX) ≠ [])
    (hSep : |(centroidOf (FT.getBestDetection c.leftX
                (dets.filter (fun d => ¬ FT.centerX d < c.leftX ∧ FT.centerX d > c.rightX)))).1
            - (centroidOf (FT.getBestDetection c.leftX
                (dets.filter (fun d => FT.centerX d < c.leftX)))).1| < 80) :
    FT.update s dets (some g)
      = ({ s with frameCount := s.frameCount + 1 }, FT.provisionalTracks dets,
         { initialized := false, numFencers := dets.length, frameBox := none })
    ∧ ∀ t ∈ FT.provisionalTracks dets, 100 ≤ t.id := by
  refine ⟨?_, provisionalTracks_id_ge dets⟩
  have hlen := two_side_candidates_length dets c.leftX c.rightX hL hR
  have hatt : ∀ s2 : FTState, FT.initGuardLines s2 dets g = none := by
    intro s2
    have hL2 : ¬ (dets.filter (fun d => FT.centerX d < c.leftX)).isEmpty = true := by
      simpa [List.isEmpty_iff] using hL
    have hR2 : ¬ (dets.filter
        (fun d => ¬ FT.centerX d < c.leftX ∧ FT.centerX d > c.rightX)).isEmpty = true := by
      simpa [List.isEmpty_iff] using hR
    unfold FT.initGuardLines
    simp only [hCal]
    rw [if_neg (fun hor => Or.elim hor hL2 hR2), if_pos hSep]
  unfold FT.update
  simp only [hInit, Bool.false_eq_true, if_false]
  unfold FT.updateInit
  rw [if_neg (by omega)]
  simp only [hatt]

/-- Witness for `lockRejected_tooClose`: ROI `(0,0,140,100)` gives guard
lines at x = 50 and x = 90; candidates with centers 45 and 95 straddle them
but are separated by 50 px < 80 px, so the lock is refused. -/
theorem lockRejected_tooClose_witness :
    (FTState.init 100 30).initialized = false ∧
    (GLD.setRoi GLDState.init ⟨0, 0, 140, 100⟩).calib
      = some ⟨⟨0, 0, 140, 100⟩, 10, 50, 70, 90, 50, 70, 90, 1, 1, 1⟩ ∧
    ([⟨40, 0, 50, 90⟩, ⟨90, 0, 100, 90⟩] : List BBox).filter
      (fun d => FT.centerX d < (50 : ℚ)) ≠ [] ∧
    ([⟨40, 0, 50, 90⟩, ⟨90, 0, 100, 90⟩] : List BBox).filter
      (fun d => ¬ FT.centerX d < (50 : ℚ) ∧ FT.centerX d > (90 : ℚ)) ≠ [] ∧
    FT.update (FTState.init 100 30) [⟨40, 0, 50, 90⟩, ⟨90, 0, 100, 90⟩]
        (some (GLD.setRoi GLDState.init ⟨0, 0, 140, 100⟩))
      = ({ FTState.init 100 30 with frameCount := (FTState.init 100 30).frameCount + 1 },
         FT.provisionalTracks [⟨40, 0, 50, 90⟩, ⟨90, 0, 100, 90⟩],
         { initialized := false, numFencers := 2, frameBox := none }) := by
  have hCal : (GLD.setRoi GLDState.init ⟨0, 0, 140, 100⟩).calib
      = some ⟨⟨0, 0, 140, 100⟩, 10, 50, 70, 90, 50, 70, 90, 1, 1, 1⟩ := by
    norm_num [GLD.setRoi, GLDState.init]
  have hL : ([⟨40, 0, 50, 90⟩, ⟨90, 0, 100, 90⟩] : List BBox).filter
      (fun d => FT.centerX d < (50 : ℚ)) ≠ [] := by
    norm_num [FT.centerX, List.filter]
  have hR : ([⟨40, 0, 50, 90⟩, ⟨90, 0, 100, 90⟩] : List BBox).filter
      (fun d => ¬ FT.centerX d < (50 : ℚ) ∧ FT.centerX d > (90 : ℚ)) ≠ [] := by
    norm_num [FT.centerX, List.filter]
  have hSep : |(centroidOf (FT.getBestDetection (50 : ℚ)
        (([⟨40, 0, 50, 90⟩, ⟨90, 0, 100, 90⟩] : List BBox).filter
          (fun d => ¬ FT.centerX d < (50 : ℚ) ∧ FT.centerX d > (90 : ℚ))))).1
      - (centroidOf (FT.getBestDetection (50 : ℚ)
        (([⟨40, 0, 50, 90⟩, ⟨90, 0, 100, 90⟩] : List BBox).filter
          (fun d => FT.centerX d < (50 : ℚ))))).1| < 80 := by
    norm_num [FT.centerX, FT.getBestDetection, centroidOf, List.filter]
  have h := lockRejected_tooClose (FTState.init 100 30)
    [⟨40, 0, 50, 90⟩, ⟨90, 0, 100, 90⟩]
    (GLD.setRoi GLDState.init ⟨0, 0, 140, 100⟩)
    ⟨⟨0, 0, 140, 100⟩, 10, 50, 70, 90, 50, 70, 90, 1, 1, 1⟩
    rfl hCal hL hR hSep
  exact ⟨rfl, hCal, hL, hR, h.1⟩

/-- Setting position `i` to an element with the same id leaves the id list
unchanged. -/
lemma map_id_set (l : List Fencer) (i : ℕ) (x : Fencer)
    (hx : x.id = (l.getD i default).id) :
    (l.set i x).map Fencer.id = l.map Fencer.id := by
  induction l generalizing i with
  | nil => rfl
  | cons a t ih =>
    cases i with
    | zero => simp_all [List.getD]
    | succ n =>
      simp only [List.set_cons_succ, List.map_cons]
      rw [ih]
      exact hx

/-- The greedy loop of `_update_tracking` only updates fencers in place: the
id list is preserved. -/
lemma trackLoop_map_id (mt : ℚ) (dets : List BBox) :
    ∀ (idxs : List ℕ) (fencers : List Fencer) (aD aT : List ℕ),
      ((FT.trackLoop mt dets idxs fencers aD aT).1).map Fencer.id
        = fencers.map Fencer.id := by
  intro idxs
  induction idxs with
  | nil => intro fencers aD aT; rfl
  | cons i rest ih =>
    intro fencers aD aT
    unfold FT.trackLoop
    dsimp only
    split
    · rfl
    · split
      · split
        · split
          · rw [ih]
            exact map_id_set _ _ _ rfl
          · rw [ih]
            exact map_id_set _ _ _ rfl
        · rw [ih]
          exact map_id_set _ _ _ rfl
      · exact ih _ _ _

/-- `_update_tracking` keeps `initialized` and can only shrink the id list of
the fencer map. -/
lemma updateTracking_shrinks (s : FTState) (dets : List BBox) :
    (FT.updateTracking s dets).1.initialized = s.initialized ∧
    ((FT.updateTracking s dets).1.fencers.map Fencer.id).Sublist
      (s.fencers.map Fencer.id) := by
  unfold FT.updateTracking
  rcases htl : FT.trackLoop s.maxTrackingDistance dets (List.range s.fencers.length)
      s.fencers [] [] with ⟨fencers1, aD, aT⟩
  dsimp only
  refine ⟨rfl, ?_⟩
  have hids : fencers1.map Fencer.id = s.fencers.map Fencer.id := by
    have := trackLoop_map_id s.maxTrackingDistance dets (List.range s.fencers.length)
      s.fencers [] []
    rwa [htl] at this
  have h1 : ((fencers1.map fun f =>
      if f.id ∈ aT then f
      else { f with framesSinceDetection := f.framesSinceDetection + 1,
                    framesAlive := f.framesAlive + 1 }).map Fencer.id)
      = fencers1.map Fencer.id := by
    rw [List.map_map]
    refine List.map_congr_left ?_
    intro f _
    simp only [Function.comp_apply]
    split <;> rfl
  have h2 := List.Sublist.map Fencer.id
    (List.filter_sublist (l := fencers1.map fun f =>
      if f.id ∈ aT then f
      else { f with framesSinceDetection := f.framesSinceDetection + 1,
                    framesAlive := f.framesAlive + 1 })
      (p := fun f => ¬ f.framesSinceDetection > s.dropoutTolerance))
  rw [h1, hids] at h2
  exact h2

/-- Claim C10: once a lock has set `initialized = True`, every later update
takes the tracking branch and keeps `initialized = True`; the set of locked
ids can only shrink (no fencer is ever locked again), and with an empty
fencer map the update still reports `initialized = true`, `num_fencers = 0`
and `frame_box = None`. -/
theorem initialized_is_absorbing (s : FTState) (dets : List BBox) (g : Option GLDState)
    (hInit : s.initialized = true) :
    (FT.update s dets g).1.initialized = true ∧
    ((FT.update s dets g).1.fencers.map Fencer.id).Sublist (s.fencers.map Fencer.id) ∧
    (s.fencers = [] →
      (FT.update s dets g).1.fencers = [] ∧
      (FT.update s dets g).2.2 = { initialized := true, numFencers := 0, frameBox := none }) := by
  have hbranch : FT.update s dets g
      = FT.updateTracking { s with frameCount := s.frameCount + 1 } dets := by
    unfold FT.update
    simp [hInit]
  have hs := updateTracking_shrinks { s with frameCount := s.frameCount + 1 } dets
  refine ⟨?_, ?_, ?_⟩
  · rw [hbranch, hs.1]
    exact hInit
  · rw [hbranch]
    exact hs.2
  · intro hemp
    rw [hbranch]
    unfold FT.updateTracking
    rw [show ({ s with frameCount := s.frameCount + 1 } : FTState).fencers = [] from hemp]
    simp [FT.trackLoop, FT.frameBoxOf]

/-- Witness for `initialized_is_absorbing`: an initialized tracker whose two
fencers have both been evicted (empty map) still reports
`initialized = true`, `num_fencers = 0`, `frame_box = none`. -/
theorem initialized_is_absorbing_witness :
    ({ maxTrackingDistance := 100, dropoutTolerance := 30, initialized := true,
       fencers := [], frameCount := 5 } : FTState).initialized = true ∧
    (FT.update { maxTrackingDistance := 100, dropoutTolerance := 30, initialized := true,
                 fencers := [], frameCount := 5 } [⟨0, 0, 2, 2⟩] none).1.initialized = true ∧
    ((FT.update { maxTrackingDistance := 100, dropoutTolerance := 30, initialized := true,
                  fencers := [], frameCount := 5 } [⟨0, 0, 2, 2⟩] none).1.fencers.map
        Fencer.id).Sublist
      (({ maxTrackingDistance := 100, dropoutTolerance := 30, initialized := true,
          fencers := [], frameCount := 5 } : FTState).fencers.map Fencer.id) ∧
    ((FT.update { maxTrackingDistance := 100, dropoutTolerance := 30, initialized := true,
                  fencers := [], frameCount := 5 } [⟨0, 0, 2, 2⟩] none).1.fencers = [] ∧
      (FT.update { maxTrackingDistance := 100, dropoutTolerance := 30, initialized := true,
                   fencers := [], frameCount := 5 } [⟨0, 0, 2, 2⟩] none).2.2
        = { initialized := true, numFencers := 0, frameBox := none }) := by
  have h := initialized_is_absorbing
    { maxTrackingDistance := 100, dropoutTolerance := 30, initialized := true,
      fencers := [], frameCount := 5 } [⟨0, 0, 2, 2⟩] none rfl
  exact ⟨rfl, h.1, h.2.1, h.2.2 rfl⟩

/-- Claim C2 (counterexample): locked fencers at x = 100 and x = 200; the
detection at x = 170 is within tracking range of fencer 1 but only 30 px from
fencer 2's centroid, so fencer 1's update is rejected — and fencer 1's
`frames_since_detection` ends the frame at 2, not 1: the rejection branch
increments it once and the unmatched-track sweep increments it again. -/
theorem antiOverlap_double_increment_cex :
    sqrtLe (dist2 ((100 : ℚ), (0 : ℚ)) (centroidOf ⟨165, -5, 175, 5⟩)) 100 ∧
    |(centroidOf (⟨165, -5, 175, 5⟩ : BBox)).1 - (200 : ℚ)| < 50 ∧
    (FT.update { maxTrackingDistance := 100, dropoutTolerance := 30, initialized := true,
                 fencers := [⟨1, ⟨95, -5, 105, 5⟩, (100, 0), 0, 0⟩,
                             ⟨2, ⟨195, -5, 205, 5⟩, (200, 0), 0, 0⟩],
                 frameCount := 1 }
        [⟨165, -5, 175, 5⟩, ⟨205, -5, 215, 5⟩] none).1.fencers.map
        (fun f => (f.id, f.bbox, f.framesSinceDetection))
      = [(1, ⟨95, -5, 105, 5⟩, 2), (2, ⟨205, -5, 215, 5⟩, 0)] := by
  refine ⟨by norm_num [sqrtLe, dist2, centroidOf], by norm_num [centroidOf], ?_⟩
  norm_num [FT.update, FT.updateTracking, FT.trackLoop, FT.frameBoxOf, FT.toTrack,
    listArgmin, argminAux, sqrtLe, dist2, centroidOf, List.range_succ, List.getD,
    List.find?, List.filter, pyInt, show ((1 : ℕ) == 2) = false from rfl,
    show ((2 : ℕ) == 2) = true from rfl, show ((2 : ℕ) == 1) = false from rfl,
    show ((1 : ℕ) == 1) = true from rfl]

/-- Claim C2 (amended): with both fencers locked, when fencer 1's nearest
unassigned detection `d1` is within `max_tracking_distance` but lies closer
than the 50 px minimum horizontal separation to fencer 2's current centroid,
fencer 1's update is rejected: its bbox and centroid stay unchanged and its
`frames_since_detection` counter is incremented by **two** — once in the
rejection branch and once more by the unmatched-track sweep (its
`frames_alive` increments once); fencer 2 is unaffected by the rejection and
commits its own detection `d2` normally. -/
theorem antiOverlap_rejection (mt : ℚ) (dt a1 a2 n1 n2 fc : ℕ) (b1 b2 d1 d2 : BBox)
    (h1 : dist2 (centroidOf b1) (centroidOf d1) < dist2 (centroidOf b1) (centroidOf d2))
    (h2 : sqrtLe (dist2 (centroidOf b1) (centroidOf d1)) mt)
    (h3 : |(centroidOf d1).1 - (centroidOf b2).1| < 50)
    (h4 : dist2 (centroidOf b2) (centroidOf d2) < dist2 (centroidOf b2) (centroidOf d1))
    (h5 : sqrtLe (dist2 (centroidOf b2) (centroidOf d2)) mt)
    (h6 : ¬ |(centroidOf d2).1 - (centroidOf b1).1| < 50)
    (h7 : n1 + 2 ≤ dt) :
    (FT.update { maxTrackingDistance := mt, dropoutTolerance := dt, initialized := true,
                 fencers := [⟨1, b1, centroidOf b1, a1, n1⟩, ⟨2, b2, centroidOf b2, a2, n2⟩],
                 frameCount := fc } [d1, d2] none).1
      = { maxTrackingDistance := mt, dropoutTolerance := dt, initialized := true,
          fencers := [⟨1, b1, centroidOf b1, a1 + 1, n1 + 2⟩,
                      ⟨2, d2, centroidOf d2, a2 + 1, 0⟩],
          frameCount := fc + 1 } := by
  have h1' : ¬ dist2 (centroidOf b1) (centroidOf d2) < dist2 (centroidOf b1) (centroidOf d1) :=
    lt_asymm h1
  have h7' : ¬ dt < n1 + 2 := Nat.not_lt.mpr h7
  have h8 : ¬ dt < 0 := Nat.not_lt.mpr (Nat.zero_le dt)
  norm_num [FT.update, FT.updateTracking, FT.trackLoop, List.range_succ, List.getD,
    List.find?, List.filter, listArgmin, argminAux,
    show ((1 : ℕ) == 2) = false from rfl, show ((2 : ℕ) == 2) = true from rfl,
    h1, h1', h2, h3, h4, h5, h6, h7, h7', h8, Nat.add_assoc]

/-- Witness for `antiOverlap_rejection` at the counterexample's geometry. -/
theorem antiOverlap_rejection_witness :
    dist2 (centroidOf ⟨95, -5, 105, 5⟩) (centroidOf ⟨165, -5, 175, 5⟩)
      < dist2 (centroidOf ⟨95, -5, 105, 5⟩) (centroidOf ⟨205, -5, 215, 5⟩) ∧
    sqrtLe (dist2 (centroidOf ⟨95, -5, 105, 5⟩) (centroidOf ⟨165, -5, 175, 5⟩)) 100 ∧
    |(centroidOf (⟨165, -5, 175, 5⟩ : BBox)).1 - (centroidOf (⟨195, -5, 205, 5⟩ : BBox)).1| < 50 ∧
    (FT.update { maxTrackingDistance := 100, dropoutTolerance := 30, initialized := true,
                 fencers := [⟨1, ⟨95, -5, 105, 5⟩, centroidOf ⟨95, -5, 105, 5⟩, 0, 0⟩,
                             ⟨2, ⟨195, -5, 205, 5⟩, centroidOf ⟨195, -5, 205, 5⟩, 0, 0⟩],
                 frameCount := 1 } [⟨165, -5, 175, 5⟩, ⟨205, -5, 215, 5⟩] none).1
      = { maxTrackingDistance := 100, dropoutTolerance := 30, initialized := true,
          fencers := [⟨1, ⟨95, -5, 105, 5⟩, centroidOf ⟨95, -5, 105, 5⟩, 1, 2⟩,
                      ⟨2, ⟨205, -5, 215, 5⟩, centroidOf ⟨205, -5, 215, 5⟩, 1, 0⟩],
          frameCount := 2 } := by
  refine ⟨by norm_num [dist2, centroidOf], by norm_num [sqrtLe, dist2, centroidOf],
    by norm_num [centroidOf], ?_⟩
  exact antiOverlap_rejection 100 30 0 0 0 0 1
    ⟨95, -5, 105, 5⟩ ⟨195, -5, 205, 5⟩ ⟨165, -5, 175, 5⟩ ⟨205, -5, 215, 5⟩
    (by norm_num [dist2, centroidOf]) (by norm_num [sqrtLe, dist2, centroidOf])
    (by norm_num [centroidOf]) (by norm_num [dist2, centroidOf])
    (by norm_num [sqrtLe, dist2, centroidOf]) (by norm_num [centroidOf]) (by norm_num)

/-- Claim C5 (counterexample): with `dropout_tolerance = 1`, one single frame
in which both locked fencers receive no accepted update (their proposals are
both rejected by the anti-overlap rule against the single detection at
x = 140) evicts both of them: each counter jumps 0 → 2 > 1 inside that one
frame, so a fencer missing for exactly `dropout_tolerance` frames is *not*
retained. -/
theorem dropout_eviction_cex :
    sqrtLe (dist2 ((100 : ℚ), (0 : ℚ)) (centroidOf ⟨135, -5, 145, 5⟩)) 100 ∧
    |(centroidOf (⟨135, -5, 145, 5⟩ : BBox)).1 - (180 : ℚ)| < 50 ∧
    (FT.update { maxTrackingDistance := 100, dropoutTolerance := 1, initialized := true,
                 fencers := [⟨1, ⟨95, -5, 105, 5⟩, (100, 0), 0, 0⟩,
                             ⟨2, ⟨175, -5, 185, 5⟩, (180, 0), 0, 0⟩],
                 frameCount := 1 } [⟨135, -5, 145, 5⟩] none).1.fencers = [] := by
  refine ⟨by norm_num [sqrtLe, dist2, centroidOf], by norm_num [centroidOf], ?_⟩
  norm_num [FT.update, FT.updateTracking, FT.trackLoop, listArgmin, argminAux,
    sqrtLe, dist2, centroidOf, List.range_succ, List.getD, List.find?, List.filter,
    show ((1 : ℕ) == 2) = false from rfl, show ((2 : ℕ) == 2) = true from rfl]

/-- One frame of the dropout scenario: fencer 1 is re-detected (its single
detection `d` is in range and far enough from fencer 2), fencer 2 gets no
proposal at all; fencer 2's counter advances by one and it is retained while
the counter stays within the tolerance. -/
lemma dropout_step (mt : ℚ) (dt a1 a2 n2 fc : ℕ) (b2 d : BBox)
    (hd : sqrtLe (dist2 (centroidOf d) (centroidOf d)) mt)
    (hsep : ¬ |(centroidOf d).1 - (centroidOf b2).1| < 50)
    (hn : n2 + 1 ≤ dt) :
    (FT.update { maxTrackingDistance := mt, dropoutTolerance := dt, initialized := true,
                 fencers := [⟨1, d, centroidOf d, a1, 0⟩, ⟨2, b2, centroidOf b2, a2, n2⟩],
                 frameCount := fc } [d] none).1
      = { maxTrackingDistance := mt, dropoutTolerance := dt, initialized := true,
          fencers := [⟨1, d, centroidOf d, a1 + 1, 0⟩, ⟨2, b2, centroidOf b2, a2 + 1, n2 + 1⟩],
          frameCount := fc + 1 } := by
  have h2 : ¬ dt < n2 + 1 := Nat.not_lt.mpr hn
  have h8 : ¬ dt < 0 := Nat.not_lt.mpr (Nat.zero_le dt)
  norm_num [FT.update, FT.updateTracking, FT.trackLoop, listArgmin, argminAux,
    List.range_succ, List.getD, List.find?, List.filter,
    show ((1 : ℕ) == 2) = false from rfl, show ((2 : ℕ) == 2) = true from rfl,
    hd, hsep, hn, h2, h8]

/-- The last frame of the dropout scenario: once fencer 2's counter passes
the tolerance it is evicted; fencer 1's slot is untouched. -/
lemma dropout_step_evict (mt : ℚ) (dt a1 a2 fc : ℕ) (b2 d : BBox)
    (hd : sqrtLe (dist2 (centroidOf d) (centroidOf d)) mt)
    (hsep : ¬ |(centroidOf d).1 - (centroidOf b2).1| < 50) :
    (FT.update { maxTrackingDistance := mt, dropoutTolerance := dt, initialized := true,
                 fencers := [⟨1, d, centroidOf d, a1, 0⟩, ⟨2, b2, centroidOf b2, a2, dt⟩],
                 frameCount := fc } [d] none).1
      = { maxTrackingDistance := mt, dropoutTolerance := dt, initialized := true,
          fencers := [⟨1, d, centroidOf d, a1 + 1, 0⟩],
          frameCount := fc + 1 } := by
  have h9 : ¬ dt + 1 ≤ dt := by omega
  have h10 : dt < dt + 1 := Nat.lt_succ_self dt
  have h8 : ¬ dt < 0 := Nat.not_lt.mpr (Nat.zero_le dt)
  norm_num [FT.update, FT.updateTracking, FT.trackLoop, listArgmin, argminAux,
    List.range_succ, List.getD, List.find?, List.filter,
    show ((1 : ℕ) == 2) = false from rfl, show ((2 : ℕ) == 2) = true from rfl,
    hd, hsep, h8, h9, h10]

/-- Dropout scenario invariant: after `k ≤ dropout_tolerance` frames fencer
2's counter is exactly `k` and both fencers are retained. -/
lemma dropout_loop (dt : ℕ) : ∀ k, k ≤ dt →
    (fun s => (FT.update s [⟨95, -5, 105, 5⟩] none).1)^[k]
      { maxTrackingDistance := 100, dropoutTolerance := dt, initialized := true,
        fencers := [⟨1, ⟨95, -5, 105, 5⟩, centroidOf ⟨95, -5, 105, 5⟩, 0, 0⟩,
                    ⟨2, ⟨495, -5, 505, 5⟩, centroidOf ⟨495, -5, 505, 5⟩, 0, 0⟩],
        frameCount := 0 }
      = { maxTrackingDistance := 100, dropoutTolerance := dt, initialized := true,
          fencers := [⟨1, ⟨95, -5, 105, 5⟩, centroidOf ⟨95, -5, 105, 5⟩, k, 0⟩,
                      ⟨2, ⟨495, -5, 505, 5⟩, centroidOf ⟨495, -5, 505, 5⟩, k, k⟩],
          frameCount := k } := by
  intro k
  induction k with
  | zero => intro _; rfl
  | succ k ih =>
    intro hk
    rw [Function.iterate_succ_apply', ih (Nat.le_of_succ_le hk)]
    exact dropout_step 100 dt k k k k ⟨495, -5, 505, 5⟩ ⟨95, -5, 105, 5⟩
      (by norm_num [sqrtLe, dist2, centroidOf]) (by norm_num [centroidOf]) hk

/-- Claim C5 (amended): in a run where a locked fencer receives neither an
accepted nor a rejected proposal (here: no detection anywhere near it), after
exactly `dropout_tolerance` such frames it is still present with counter
`dropout_tolerance`, and after `dropout_tolerance + 1` frames it is evicted
while the other locked fencer's slot is intact.  (A frame whose proposal is
*rejected* by the anti-overlap rule advances the counter by two, so with
rejections eviction can come after as few as
`⌈(dropout_tolerance + 1) / 2⌉` frames — see the counterexample.) -/
theorem dropout_eviction (dt : ℕ) :
    ((fun s => (FT.update s [⟨95, -5, 105, 5⟩] none).1)^[dt]
        { maxTrackingDistance := 100, dropoutTolerance := dt, initialized := true,
          fencers := [⟨1, ⟨95, -5, 105, 5⟩, centroidOf ⟨95, -5, 105, 5⟩, 0, 0⟩,
                      ⟨2, ⟨495, -5, 505, 5⟩, centroidOf ⟨495, -5, 505, 5⟩, 0, 0⟩],
          frameCount := 0 }).fencers.map (fun f => (f.id, f.framesSinceDetection))
      = [(1, 0), (2, dt)] ∧
    ((fun s => (FT.update s [⟨95, -5, 105, 5⟩] none).1)^[dt + 1]
        { maxTrackingDistance := 100, dropoutTolerance := dt, initialized := true,
          fencers := [⟨1, ⟨95, -5, 105, 5⟩, centroidOf ⟨95, -5, 105, 5⟩, 0, 0⟩,
                      ⟨2, ⟨495, -5, 505, 5⟩, centroidOf ⟨495, -5, 505, 5⟩, 0, 0⟩],
          frameCount := 0 }).fencers
      = [⟨1, ⟨95, -5, 105, 5⟩, centroidOf ⟨95, -5, 105, 5⟩, dt + 1, 0⟩] := by
  constructor
  · rw [dropout_loop dt dt (le_refl dt)]
    rfl
  · rw [Function.iterate_succ_apply', dropout_loop dt dt (le_refl dt)]
    exact congrArg FTState.fencers
      (dropout_step_evict 100 dt dt dt dt ⟨495, -5, 505, 5⟩ ⟨95, -5, 105, 5⟩
        (by norm_num [sqrtLe, dist2, centroidOf]) (by norm_num [centroidOf]))

/-- If the current best strictly beats every remaining element, `argminAux`
keeps the current best index. -/
lemma argminAux_keep : ∀ (l : List ℚ) (i bi : ℕ) (bv : ℚ),
    (∀ k, k < l.length → bv < l.getD k 0) → argminAux l i bi bv = bi := by
  intro l
  induction l with
  | nil => intro i bi bv _; rfl
  | cons v rest ih =>
    intro i bi bv h
    unfold argminAux
    have h0 : bv < v := by simpa using h 0 (Nat.succ_pos _)
    rw [if_neg (not_lt_of_gt h0)]
    exact ih (i + 1) bi bv fun k hk => by simpa using h (k + 1) (Nat.succ_lt_succ hk)

/-- If position `j` of the remaining list strictly beats both the current
best and every other remaining element, `argminAux` lands on it. -/
lemma argminAux_land : ∀ (l : List ℚ) (i bi : ℕ) (bv : ℚ) (j : ℕ),
    j < l.length → l.getD j 0 < bv →
    (∀ m, m < l.length → m ≠ j → l.getD j 0 < l.getD m 0) →
    argminAux l i bi bv = i + j := by
  intro l
  induction l with
  | nil => intro i bi bv j hj _ _; exact absurd hj (Nat.not_lt_zero j)
  | cons v rest ih =>
    intro i bi bv j hj h1 h2
    unfold argminAux
    cases j with
    | zero =>
      have h1v : v < bv := by simpa using h1
      rw [if_pos h1v, argminAux_keep rest (i + 1) i v ?hrest]
      · omega
      case hrest =>
        intro k hk
        simpa using h2 (k + 1) (Nat.succ_lt_succ hk) (Nat.succ_ne_zero k)
    | succ k =>
      have hj2 : k < rest.length := Nat.lt_of_succ_lt_succ hj
      have h1r : rest.getD k 0 < bv := by simpa using h1
      have h2r : ∀ m, m < rest.length → m ≠ k → rest.getD k 0 < rest.getD m 0 := by
        intro m hm hmk
        simpa using h2 (m + 1) (Nat.succ_lt_succ hm) (fun hc => hmk (by omega))
      by_cases hv : v < bv
      · have hvk : rest.getD k 0 < v := by
          simpa using h2 0 (Nat.succ_pos _) (by omega)
        rw [if_pos hv, ih (i + 1) i v k hj2 hvk h2r]
        omega
      · rw [if_neg hv, ih (i + 1) bi bv k hj2 h1r h2r]
        omega

/-- A position that strictly beats every other position is the `listArgmin`
(the embedding of `numpy.argmin` on rows with a strict minimum). -/
lemma listArgmin_strict (l : List ℚ) (j : ℕ) (hj : j < l.length)
    (h : ∀ m, m < l.length → m ≠ j → l.getD j 0 < l.getD m 0) :
    listArgmin l = j := by
  cases l with
  | nil => exact absurd hj (Nat.not_lt_zero j)
  | cons v rest =>
    unfold listArgmin
    cases j with
    | zero =>
      apply argminAux_keep
      intro k hk
      simpa using h (k + 1) (Nat.succ_lt_succ hk) (Nat.succ_ne_zero k)
    | succ k =>
      have h1 : rest.getD k 0 < v := by
        simpa using h 0 (Nat.succ_pos _) (by omega)
      have h2 : ∀ m, m < rest.length → m ≠ k → rest.getD k 0 < rest.getD m 0 := by
        intro m hm hmk
        simpa using h (m + 1) (Nat.succ_lt_succ hm) (fun hc => hmk (by omega))
      show argminAux rest 1 0 v = k + 1
      rw [argminAux_land rest 1 0 v k (Nat.lt_of_succ_lt_succ hj) h1 h2]
      omega

/-- Every pair produced by the greedy matching fold pairs a processed row
with the argmin of its *whole* row, within `maxDistance`. -/
lemma greedyFold_mem (rowf : ℕ → List ℚ) (maxD : ℚ) :
    ∀ (rows : List ℕ) (A : List (ℕ × ℕ)) (C : List ℕ) (p : ℕ × ℕ),
      p ∈ (rows.foldl (fun acc r =>
        let c := listArgmin (rowf r)
        if c ∈ acc.2 then acc
        else if ¬ sqrtLe ((rowf r).getD c 0) maxD then acc
        else ((r, c) :: acc.1, c :: acc.2)) (A, C)).1 →
      p ∈ A ∨ (p.2 = listArgmin (rowf p.1) ∧ sqrtLe ((rowf p.1).getD p.2 0) maxD ∧ p.1 ∈ rows) := by
  intro rows
  induction rows with
  | nil => intro A C p hp; exact Or.inl hp
  | cons r rest ih =>
    intro A C p hp
    rw [List.foldl_cons] at hp
    by_cases hc : listArgmin (rowf r) ∈ C
    · rw [if_pos hc] at hp
      rcases ih A C p hp with h | h
      · exact Or.inl h
      · exact Or.inr ⟨h.1, h.2.1, List.mem_cons_of_mem r h.2.2⟩
    · rw [if_neg hc] at hp
      by_cases hd : ¬ sqrtLe ((rowf r).getD (listArgmin (rowf r)) 0) maxD
      · rw [if_pos hd] at hp
        rcases ih A C p hp with h | h
        · exact Or.inl h
        · exact Or.inr ⟨h.1, h.2.1, List.mem_cons_of_mem r h.2.2⟩
      · rw [if_neg hd] at hp
        rcases ih _ _ p hp with h | h
        · rcases List.mem_cons.mp h with h2 | h2
          · subst h2
            exact Or.inr ⟨rfl, not_not.mp hd, List.mem_cons_self r rest⟩
          · exact Or.inl h2
        · exact Or.inr ⟨h.1, h.2.1, List.mem_cons_of_mem r h.2.2⟩

/-- Claim C1 (amended): each object that the greedy matcher of
`CentroidTracker.update` matches is matched to the argmin of its *whole* row
(the globally nearest detection) and only within `max_distance`; there is no
fallback to the nearest *unclaimed* detection (see the counterexample).
Rows are processed in ascending order of row minimum: the processing order
`argsortBy` is sorted by the row-minimum key and is a permutation of the row
indices. -/
theorem greedy_matches_row_argmin :
    (∀ (rowf : ℕ → List ℚ) (maxD : ℚ) (rows : List ℕ) (p : ℕ × ℕ),
       p ∈ (CT.greedyAssign rowf maxD rows).1 →
       p.2 = listArgmin (rowf p.1) ∧ sqrtLe ((rowf p.1).getD p.2 0) maxD ∧ p.1 ∈ rows) ∧
    (∀ (key : ℕ → ℚ) (n : ℕ),
       (argsortBy key n).Sorted (fun i j => key i ≤ key j) ∧
       (argsortBy key n).Perm (List.range n)) := by
  constructor
  · intro rowf maxD rows p hp
    rcases greedyFold_mem rowf maxD rows [] [] p hp with h | h
    · exact absurd h (List.not_mem_nil p)
    · exact h
  · intro key n
    constructor
    · haveI h1 : IsTotal ℕ (fun i j => key i ≤ key j) := ⟨fun a b => le_total (key a) (key b)⟩
      haveI h2 : IsTrans ℕ (fun i j => key i ≤ key j) := ⟨fun a b c hab hbc => le_trans hab hbc⟩
      exact List.sorted_insertionSort _ _
    · exact List.perm_insertionSort _ _

/-- Witness for `greedy_matches_row_argmin`: a 1×2 matrix with row `[1, 9]`
and threshold 50; the single row claims column 0. -/
theorem greedy_matches_row_argmin_witness :
    ((0, 0) ∈ (CT.greedyAssign (fun _ => [(1 : ℚ), 9]) 50 [0]).1) ∧
    ((0 : ℕ) = listArgmin [(1 : ℚ), 9] ∧ sqrtLe (([(1 : ℚ), 9]).getD 0 0) 50 ∧ (0 : ℕ) ∈ [0]) ∧
    (argsortBy (fun _ => (0 : ℚ)) 2).Sorted (fun i j => (0 : ℚ) ≤ 0) ∧
    (argsortBy (fun _ => (0 : ℚ)) 2).Perm (List.range 2) := by
  have hmem : ((0, 0) : ℕ × ℕ) ∈ (CT.greedyAssign (fun _ => [(1 : ℚ), 9]) 50 [0]).1 := by
    norm_num [CT.greedyAssign, listArgmin, argminAux, sqrtLe, List.getD]
  refine ⟨hmem, (greedy_matches_row_argmin.1 (fun _ => [(1 : ℚ), 9]) 50 [0] (0, 0) hmem : _),
    (greedy_matches_row_argmin.2 (fun _ => (0 : ℚ)) 2).1,
    (greedy_matches_row_argmin.2 (fun _ => (0 : ℚ)) 2).2⟩

/-- Claim C1 (counterexample): objects 1 at (0,0) and 2 at (32,0); detections
at (10,0) and (70,0).  Object 1 (row minimum 10) claims (10,0); object 2's
row-global argmin is also column 0, already claimed, so object 2 goes
UNMATCHED (keeps its old bbox) even though the unclaimed detection (70,0) is
within `max_distance` (38 ≤ 50) — it is registered as a brand-new object 3
instead of being matched to object 2. -/
theorem greedy_no_fallback_cex :
    sqrtLe (dist2 ((32 : ℚ), (0 : ℚ)) (centroidOf ⟨65, -5, 75, 5⟩)) 50 ∧
    (CT.update (CT.update (CTState.init 10 50)
        [⟨-5, -5, 5, 5⟩, ⟨27, -5, 37, 5⟩]).1
        [⟨5, -5, 15, 5⟩, ⟨65, -5, 75, 5⟩]).1.objs.map (fun o => (o.id, o.bbox))
      = [(1, ⟨5, -5, 15, 5⟩), (2, ⟨27, -5, 37, 5⟩), (3, ⟨65, -5, 75, 5⟩)] := by
  refine ⟨by norm_num [sqrtLe, dist2, centroidOf], ?_⟩
  norm_num [CT.update, CTState.init, CT.registerAll, CT.register, CT.row, CT.greedyAssign,
    CT.applyAssign, CT.assignedIds, CT.sweep, CT.tracksOf, centroidOf, dist2, sqrtLe,
    listArgmin, argminAux, listMin, argsortBy, List.range_succ, List.getD,
    List.foldl_append, List.filterMap_cons]

/-- `getD` through `map`, in range. -/
lemma getD_map_of_lt {α β : Type} (f : α → β) (l : List α) (n : ℕ) (dA : α) (dB : β)
    (h : n < l.length) : (l.map f).getD n dB = f (l.getD n dA) := by
  rw [List.getD_eq_getElem _ _ (by simpa using h), List.getD_eq_getElem _ _ h,
    List.getElem_map]

/-- When every processed row's whole-row argmin is the row itself, within
distance, and no row is pre-claimed, the greedy fold matches every row to its
own column. -/
lemma greedyFold_all (rowf : ℕ → List ℚ) (maxD : ℚ) :
    ∀ (rows : List ℕ) (A : List (ℕ × ℕ)) (C : List ℕ),
      rows.Nodup →
      (∀ r ∈ rows, listArgmin (rowf r) = r) →
      (∀ r ∈ rows, sqrtLe ((rowf r).getD r 0) maxD) →
      (∀ r ∈ rows, r ∉ C) →
      rows.foldl (fun acc r =>
        let c := listArgmin (rowf r)
        if c ∈ acc.2 then acc
        else if ¬ sqrtLe ((rowf r).getD c 0) maxD then acc
        else ((r, c) :: acc.1, c :: acc.2)) (A, C)
      = (rows.reverse.map (fun r => (r, r)) ++ A, rows.reverse ++ C) := by
  intro rows
  induction rows with
  | nil => intro A C _ _ _ _; simp
  | cons r rest ih =>
    intro A C hnd hmin hdist hC
    have hr : listArgmin (rowf r) = r := hmin r (List.mem_cons_self r rest)
    have hnd2 := List.nodup_cons.mp hnd
    rw [List.foldl_cons]
    dsimp only
    rw [hr, if_neg (hC r (List.mem_cons_self r rest)),
      if_neg (not_not_intro (hdist r (List.mem_cons_self r rest))),
      ih ((r, r) :: A) (r :: C) hnd2.2
        (fun x hx => hmin x (List.mem_cons_of_mem r hx))
        (fun x hx => hdist x (List.mem_cons_of_mem r hx))
        (fun x hx => by
          simp only [List.mem_cons, not_or]
          exact ⟨fun he => hnd2.1 (he ▸ hx), hC x (List.mem_cons_of_mem r hx)⟩)]
    simp

/-- `find?` on a list of diagonal pairs finds exactly the diagonal entry. -/
lemma find?_pair_map : ∀ (L : List ℕ) (i : ℕ), i ∈ L →
    (L.map (fun r => (r, r))).find? (fun p => p.1 == i) = some (i, i) := by
  intro L
  induction L with
  | nil => intro i hi; exact absurd hi (List.not_mem_nil i)
  | cons a rest ih =>
    intro i hi
    by_cases hai : a = i
    · subst hai
      simp [List.find?]
    · have : i ∈ rest := by
        rcases List.mem_cons.mp hi with h | h
        · exact absurd h.symm hai
        · exact h
      have hba : ((a, a).1 == i) = false := by simpa using hai
      simp only [List.map_cons, List.find?, hba]
      exact ih i this

/-- Applying a full diagonal assignment updates every object with its own
detection. -/
lemma applyAssign_all (objs : List CTObj) (dets : List BBox) (cents : List (ℚ × ℚ))
    (L : List ℕ) (hL : ∀ i, i < objs.length → i ∈ L) :
    CT.applyAssign objs dets cents (L.map fun r => (r, r))
      = (List.range objs.length).map (fun i =>
          { objs.getD i default with
              bbox := dets.getD i default
              centroid := cents.getD i default
              disappeared := 0 }) := by
  unfold CT.applyAssign
  refine List.map_congr_left ?_
  intro i hi
  rw [find?_pair_map L i (hL i (List.mem_range.mp hi))]

/-- The registration loop is a no-op when every detection column is already
assigned. -/
lemma registerLoop_skip (dets : List BBox) (C : List ℕ) :
    ∀ (L : List ℕ) (s : CTState), (∀ i ∈ L, i ∈ C) →
      L.foldl (fun acc i => if i ∈ C then acc else CT.register acc (dets.getD i default)) s
        = s := by
  intro L
  induction L with
  | nil => intro s _; rfl
  | cons a rest ih =>
    intro s h
    rw [List.foldl_cons, if_pos (h a (List.mem_cons_self a rest))]
    exact ih s fun i hi => h i (List.mem_cons_of_mem a hi)

/-- The disappearance sweep is a no-op when every object's id is assigned. -/
lemma sweep_all (m : ℕ) (ids : List ℕ) :
    ∀ objs : List CTObj, (∀ o ∈ objs, o.id ∈ ids) → CT.sweep m ids objs = objs := by
  intro objs
  induction objs with
  | nil => intro _; rfl
  | cons o rest ih =>
    intro h
    unfold CT.sweep
    rw [List.filterMap_cons]
    rw [show (if o.id ∈ ids then some o
        else if o.disappeared + 1 > m then none
        else some { o with disappeared := o.disappeared + 1 }) = some o from
      if_pos (h o (List.mem_cons_self o rest))]
    have := ih fun x hx => h x (List.mem_cons_of_mem o hx)
    unfold CT.sweep at this
    rw [this]

/-- The general identity-stability result for `CentroidTracker.update`: when
there are as many detections as tracked objects and each object's own moved
detection is within `max_distance` and *strictly* nearer to it than every
other detection, every object is matched to its own detection: ids are
preserved in place, each bbox/centroid becomes the own detection's, and every
disappearance counter resets. -/
lemma ct_identity_stable (s : CTState) (dets : List BBox)
    (hne : s.objs ≠ [])
    (hlen : dets.length = s.objs.length)
    (hclose : ∀ i, i < s.objs.length →
      sqrtLe (dist2 (s.objs.getD i default).centroid (centroidOf (dets.getD i default)))
        s.maxDistance)
    (hstrict : ∀ i, i < s.objs.length → ∀ j, j < s.objs.length → j ≠ i →
      dist2 (s.objs.getD i default).centroid (centroidOf (dets.getD i default))
        < dist2 (s.objs.getD i default).centroid (centroidOf (dets.getD j default))) :
    (CT.update s dets).1.objs
      = (List.range s.objs.length).map (fun i =>
          { s.objs.getD i default with
              bbox := dets.getD i default
              centroid := centroidOf (dets.getD i default)
              disappeared := 0 }) := by
  have hdne : dets ≠ [] := by
    intro h
    rw [h] at hlen
    exact hne (List.length_eq_zero.mp hlen.symm)
  have hie1 : dets.isEmpty = false := by simpa [List.isEmpty_iff] using hdne
  have hie2 : s.objs.isEmpty = false := by simpa [List.isEmpty_iff] using hne
  have hrowlen : ∀ r, (CT.row s.objs (List.map centroidOf dets) r).length = s.objs.length := by
    intro r
    simp [CT.row, hlen]
  have hrowget : ∀ r m, m < s.objs.length →
      (CT.row s.objs (List.map centroidOf dets) r).getD m 0
        = dist2 (s.objs.getD r default).centroid (centroidOf (dets.getD m default)) := by
    intro r m hm
    unfold CT.row
    rw [getD_map_of_lt _ _ m default 0 (by simpa [hlen] using hm),
      getD_map_of_lt centroidOf dets m default default (by simpa [hlen] using hm)]
  set R : List ℕ :=
    argsortBy (fun i => listMin (CT.row s.objs (List.map centroidOf dets) i)) s.objs.length
    with hR
  have hpermR : R.Perm (List.range s.objs.length) := by
    rw [hR]
    exact List.perm_insertionSort _ _
  have hmemR : ∀ r, r ∈ R ↔ r < s.objs.length := by
    intro r
    rw [hpermR.mem_iff, List.mem_range]
  have hndR : R.Nodup := hpermR.nodup_iff.mpr (List.nodup_range s.objs.length)
  have hargmin : ∀ r ∈ R, listArgmin (CT.row s.objs (List.map centroidOf dets) r) = r := by
    intro r hr
    have hrn := (hmemR r).mp hr
    apply listArgmin_strict _ r (by rw [hrowlen]; exact hrn)
    intro m hm hmr
    rw [hrowlen] at hm
    rw [hrowget r r hrn, hrowget r m hm]
    exact hstrict r hrn m hm hmr
  have hdistR : ∀ r ∈ R, sqrtLe ((CT.row s.objs (List.map centroidOf dets) r).getD r 0)
      s.maxDistance := by
    intro r hr
    have hrn := (hmemR r).mp hr
    rw [hrowget r r hrn]
    exact hclose r hrn
  have hge : CT.greedyAssign (CT.row s.objs (List.map centroidOf dets)) s.maxDistance R
      = (R.reverse.map (fun r => (r, r)), R.reverse) := by
    unfold CT.greedyAssign
    rw [greedyFold_all _ _ R [] [] hndR hargmin hdistR (fun r _ => List.not_mem_nil r)]
    simp
  unfold CT.update
  rw [hie1, hie2]
  dsimp only
  rw [hge]
  dsimp only
  rw [applyAssign_all s.objs dets (List.map centroidOf dets) R.reverse
    (fun i hi => List.mem_reverse.mpr ((hmemR i).mpr hi))]
  rw [registerLoop_skip dets R.reverse (List.range dets.length) _
    (fun i hi => List.mem_reverse.mpr ((hmemR i).mpr (by
      rw [← hlen]; exact List.mem_range.mp hi)))]
  have hids : CT.assignedIds s.objs (CT.row s.objs (List.map centroidOf dets)) R R.reverse
      = R.map (fun r => (s.objs.getD r default).id) := by
    unfold CT.assignedIds
    congr 1
    rw [List.filter_eq_self]
    intro r hr
    simp only [decide_eq_true_eq]
    rw [hargmin r hr]
    exact List.mem_reverse.mpr hr
  rw [hids]
  rw [sweep_all s.maxDisappeared _ _ ?hall]
  case hall =>
    intro o ho
    rcases List.mem_map.mp ho with ⟨i, hi, rfl⟩
    exact List.mem_map.mpr ⟨i, (hmemR i).mpr (List.mem_range.mp hi), rfl⟩
  simp only [Bool.false_eq_true, if_false]
  refine List.map_congr_left ?_
  intro i hi
  rw [getD_map_of_lt centroidOf dets i default default
    (by simpa [hlen] using List.mem_range.mp hi)]

/-- The identity-stability result for the initialized `DualFencerTracker`:
with both fencers locked, when fencer 1's nearest detection is `d1` (strictly
nearer than `d2`, within range) and fencer 2's detection `d2` is within
range, and both commits respect the 50 px horizontal separation (fencer 2's
checked against fencer 1's just-updated centroid), both fencers commit their
own detections and keep their ids. -/
lemma fencer_identity_stable (mt : ℚ) (dt a1 a2 n1 n2 fc : ℕ) (b1 b2 d1 d2 : BBox)
    (h1 : dist2 (centroidOf b1) (centroidOf d1) < dist2 (centroidOf b1) (centroidOf d2))
    (h2 : sqrtLe (dist2 (centroidOf b1) (centroidOf d1)) mt)
    (h3 : ¬ |(centroidOf d1).1 - (centroidOf b2).1| < 50)
    (h4 : sqrtLe (dist2 (centroidOf b2) (centroidOf d2)) mt)
    (h5 : ¬ |(centroidOf d2).1 - (centroidOf d1).1| < 50) :
    (FT.update { maxTrackingDistance := mt, dropoutTolerance := dt, initialized := true,
                 fencers := [⟨1, b1, centroidOf b1, a1, n1⟩, ⟨2, b2, centroidOf b2, a2, n2⟩],
                 frameCount := fc } [d1, d2] none).1
      = { maxTrackingDistance := mt, dropoutTolerance := dt, initialized := true,
          fencers := [⟨1, d1, centroidOf d1, a1 + 1, 0⟩, ⟨2, d2, centroidOf d2, a2 + 1, 0⟩],
          frameCount := fc + 1 } := by
  have h1' : ¬ dist2 (centroidOf b1) (centroidOf d2) < dist2 (centroidOf b1) (centroidOf d1) :=
    lt_asymm h1
  have h8 : ¬ dt < 0 := Nat.not_lt.mpr (Nat.zero_le dt)
  norm_num [FT.update, FT.updateTracking, FT.trackLoop, List.range_succ, List.getD,
    List.find?, List.filter, listArgmin, argminAux,
    show ((1 : ℕ) == 2) = false from rfl, show ((2 : ℕ) == 2) = true from rfl,
    show ((2 : ℕ) == 1) = false from rfl, show ((1 : ℕ) == 1) = true from rfl,
    h1, h1', h2, h3, h4, h5, h8]

/-- Claim C9 (amended): identity stability holds for both trackers under a
strict-nearest side condition (without it the greedy matchers can swap ids —
see the counterexample).  CentroidTracker: with as many detections as
objects, each object's own detection within `max_distance` and strictly
nearer to it than every other detection, every id keeps its own (moved)
detection.  DualFencerTracker (initialized, both locked): when fencer 1's
nearest detection is its own `d1` (within range) and fencer 2's `d2` is
within range, and both commits clear the 50 px anti-overlap separation, both
ids are preserved on their own detections. -/
theorem identity_stability_conditional :
    (∀ (s : CTState) (dets : List BBox),
      s.objs ≠ [] →
      dets.length = s.objs.length →
      (∀ i, i < s.objs.length →
        sqrtLe (dist2 (s.objs.getD i default).centroid (centroidOf (dets.getD i default)))
          s.maxDistance) →
      (∀ i, i < s.objs.length → ∀ j, j < s.objs.length → j ≠ i →
        dist2 (s.objs.getD i default).centroid (centroidOf (dets.getD i default))
          < dist2 (s.objs.getD i default).centroid (centroidOf (dets.getD j default))) →
      (CT.update s dets).1.objs
        = (List.range s.objs.length).map (fun i =>
            { s.objs.getD i default with
                bbox := dets.getD i default
                centroid := centroidOf (dets.getD i default)
                disappeared := 0 })) ∧
    (∀ (mt : ℚ) (dt a1 a2 n1 n2 fc : ℕ) (b1 b2 d1 d2 : BBox),
      dist2 (centroidOf b1) (centroidOf d1) < dist2 (centroidOf b1) (centroidOf d2) →
      sqrtLe (dist2 (centroidOf b1) (centroidOf d1)) mt →
      ¬ |(centroidOf d1).1 - (centroidOf b2).1| < 50 →
      sqrtLe (dist2 (centroidOf b2) (centroidOf d2)) mt →
      ¬ |(centroidOf d2).1 - (centroidOf d1).1| < 50 →
      (FT.update { maxTrackingDistance := mt, dropoutTolerance := dt, initialized := true,
                   fencers := [⟨1, b1, centroidOf b1, a1, n1⟩, ⟨2, b2, centroidOf b2, a2, n2⟩],
                   frameCount := fc } [d1, d2] none).1
        = { maxTrackingDistance := mt, dropoutTolerance := dt, initialized := true,
            fencers := [⟨1, d1, centroidOf d1, a1 + 1, 0⟩, ⟨2, d2, centroidOf d2, a2 + 1, 0⟩],
            frameCount := fc + 1 }) :=
  ⟨fun s dets hne hlen hclose hstrict => ct_identity_stable s dets hne hlen hclose hstrict,
   fun mt dt a1 a2 n1 n2 fc b1 b2 d1 d2 h1 h2 h3 h4 h5 =>
     fencer_identity_stable mt dt a1 a2 n1 n2 fc b1 b2 d1 d2 h1 h2 h3 h4 h5⟩

/-- Claim C9 (counterexample): objects 1 at (0,0) and 2 at (70,0); in the
next frame object 1's detection moves to (50,0) (distance 50 = threshold)
and object 2's to (25,0) (distance 45).  Object 2 is processed first (row
minimum 20 < 25) and claims (50,0) — object 1's detection — and object 1
then claims (25,0): the ids swap even though every tracked detection moved
by at most `max_distance`. -/
theorem identity_swap_cex :
    sqrtLe (dist2 ((0 : ℚ), (0 : ℚ)) ((50 : ℚ), (0 : ℚ))) 50 ∧
    sqrtLe (dist2 ((70 : ℚ), (0 : ℚ)) ((25 : ℚ), (0 : ℚ))) 50 ∧
    (CT.update (CTState.init 10 50) [⟨-5, -5, 5, 5⟩, ⟨65, -5, 75, 5⟩]).1.objs.map
        (fun o => (o.id, o.centroid)) = [(1, (0, 0)), (2, (70, 0))] ∧
    (CT.update (CT.update (CTState.init 10 50) [⟨-5, -5, 5, 5⟩, ⟨65, -5, 75, 5⟩]).1
        [⟨45, -5, 55, 5⟩, ⟨20, -5, 30, 5⟩]).1.objs.map (fun o => (o.id, o.centroid))
      = [(1, (25, 0)), (2, (50, 0))] := by
  refine ⟨by norm_num [sqrtLe, dist2], by norm_num [sqrtLe, dist2], ?_, ?_⟩
  · norm_num [CT.update, CTState.init, CT.registerAll, CT.register, CT.row, CT.greedyAssign,
      CT.applyAssign, CT.assignedIds, CT.sweep, CT.tracksOf, centroidOf, dist2, sqrtLe,
      listArgmin, argminAux, listMin, argsortBy, List.range_succ, List.getD,
      List.foldl_append, List.filterMap_cons]
  · norm_num [CT.update, CTState.init, CT.registerAll, CT.register, CT.row, CT.greedyAssign,
      CT.applyAssign, CT.assignedIds, CT.sweep, CT.tracksOf, centroidOf, dist2, sqrtLe,
      listArgmin, argminAux, listMin, argsortBy, List.range_succ, List.getD,
      List.foldl_append, List.filterMap_cons]

/-- Witness for `identity_stability_conditional`: objects 1 at (0,0) and 2 at
(70,0) with detections at (10,0) and (70,0) keep their ids; locked fencers at
(0,0) and (200,0) with detections at (10,0) and (210,0) keep ids 1 and 2. -/
theorem identity_stability_conditional_witness :
    (CT.update { nextId := 3,
                 objs := [⟨1, ⟨-5, -5, 5, 5⟩, (0, 0), 0⟩, ⟨2, ⟨65, -5, 75, 5⟩, (70, 0), 0⟩],
                 maxDisappeared := 10, maxDistance := 50 }
        [⟨5, -5, 15, 5⟩, ⟨65, -5, 75, 5⟩]).1.objs
      = (List.range ([⟨1, ⟨-5, -5, 5, 5⟩, (0, 0), 0⟩,
            ⟨2, ⟨65, -5, 75, 5⟩, (70, 0), 0⟩] : List CTObj).length).map (fun i =>
          { ([⟨1, ⟨-5, -5, 5, 5⟩, (0, 0), 0⟩,
              ⟨2, ⟨65, -5, 75, 5⟩, (70, 0), 0⟩] : List CTObj).getD i default with
              bbox := ([⟨5, -5, 15, 5⟩, ⟨65, -5, 75, 5⟩] : List BBox).getD i default
              centroid := centroidOf (([⟨5, -5, 15, 5⟩, ⟨65, -5, 75, 5⟩] : List BBox).getD
                i default)
              disappeared := 0 }) ∧
    (FT.update { maxTrackingDistance := 100, dropoutTolerance := 30, initialized := true,
                 fencers := [⟨1, ⟨-5, -5, 5, 5⟩, centroidOf ⟨-5, -5, 5, 5⟩, 0, 0⟩,
                             ⟨2, ⟨195, -5, 205, 5⟩, centroidOf ⟨195, -5, 205, 5⟩, 0, 0⟩],
                 frameCount := 7 } [⟨5, -5, 15, 5⟩, ⟨205, -5, 215, 5⟩] none).1
      = { maxTrackingDistance := 100, dropoutTolerance := 30, initialized := true,
          fencers := [⟨1, ⟨5, -5, 15, 5⟩, centroidOf ⟨5, -5, 15, 5⟩, 1, 0⟩,
                      ⟨2, ⟨205, -5, 215, 5⟩, centroidOf ⟨205, -5, 215, 5⟩, 1, 0⟩],
          frameCount := 8 } := by
  constructor
  · refine identity_stability_conditional.1
      { nextId := 3,
        objs := [⟨1, ⟨-5, -5, 5, 5⟩, (0, 0), 0⟩, ⟨2, ⟨65, -5, 75, 5⟩, (70, 0), 0⟩],
        maxDisappeared := 10, maxDistance := 50 }
      [⟨5, -5, 15, 5⟩, ⟨65, -5, 75, 5⟩] (by simp) (by simp) ?_ ?_
    · intro i hi
      simp only [List.length_cons, List.length_nil] at hi
      interval_cases i <;> norm_num [sqrtLe, dist2, centroidOf, List.getD]
    · intro i hi j hj hji
      simp only [List.length_cons, List.length_nil] at hi hj
      interval_cases i <;> interval_cases j <;>
        first
          | exact absurd rfl hji
          | norm_num [dist2, centroidOf, List.getD]
  · exact identity_stability_conditional.2 100 30 0 0 0 0 7
      ⟨-5, -5, 5, 5⟩ ⟨195, -5, 205, 5⟩ ⟨5, -5, 15, 5⟩ ⟨205, -5, 215, 5⟩
      (by norm_num [dist2, centroidOf]) (by norm_num [sqrtLe, dist2, centroidOf])
      (by norm_num [centroidOf]) (by norm_num [sqrtLe, dist2, centroidOf])
      (by norm_num [centroidOf])
